import Mathlib

/-!
# Verification of the workflow validator and quality-assessment engine

A shallow embedding, in Lean 4, of the core logic of the workflow
quality validator found in `workflow-builder-system/tools`:

* `validator.py` — `WorkflowValidator`: anchor generation and matching,
  heading-hierarchy and link-integrity checks, the built-in quality
  assessors, the validation report, and the critical-issue set;
* `plugins/quality_assessment_manager.py` — `QualityAssessmentManager`:
  plugin execution, weighted aggregation, grading, weight updates;
* `plugins/quality_assessment/*.py` — the five standard quality plugins
  (their scoring and `get_assessment_details` logic);
* `validator_plugins.py` — `PluginManager.load_config`.

Modelling conventions:

* Python `float` scores and weights are modelled as `ℚ` (the scores in
  the source are small decimal literals, exact in `ℚ`).
* Python strings are Lean `String`s; where character-level scanning is
  required the embedding works on `List Char` (`String.data`).
* Python sets are modelled as lists used only through membership
  (`contains` / `any`), so duplicate entries and ordering are
  irrelevant to every statement proved about them.
* Python dicts are association lists; iteration order is insertion
  order, as in CPython.
* File-system scans (globbing, reading) are external collaborators:
  functions take the outcome of those scans (file statistics, check
  signals) as explicit inputs, and the arithmetic/aggregation logic is
  embedded faithfully from the source.
* Regex scanners used by the source are embedded as character-level
  scanners with the same leftmost, non-overlapping match semantics;
  the character classes `\w` and `\s` of Python's `re` are embedded on
  the character ranges the source's data actually exercises (ASCII,
  the CJK block U+4E00–U+9FFF and the emoji blocks listed literally in
  the source's own character classes, plus the Unicode whitespace set).
-/

namespace WorkflowTools

/-! ## Character predicates (Python `re` classes and `str` methods) -/

/-- Python's `\s` / `str.isspace` whitespace set: ASCII whitespace and
the Unicode space characters. -/
def pyIsSpace (c : Char) : Bool :=
  let n := c.toNat
  (9 ≤ n && n ≤ 13) || n = 32 || (28 ≤ n && n ≤ 31) || n = 133 || n = 160 ||
  n = 0x1680 || (0x2000 ≤ n && n ≤ 0x200A) || n = 0x2028 || n = 0x2029 ||
  n = 0x202F || n = 0x205F || n = 0x3000

/-- ASCII lower-casing, modelling `str.lower()` on the identifier/ASCII
range (non-ASCII characters, e.g. CJK, are fixed by `lower()` as well). -/
def pyToLower (c : Char) : Char :=
  let n := c.toNat
  if 65 ≤ n && n ≤ 90 then Char.ofNat (n + 32) else c

/-- The CJK unified ideograph range `一-鿿` named in the
source's character classes. -/
def isCJK (c : Char) : Bool :=
  0x4E00 ≤ c.toNat && c.toNat ≤ 0x9FFF

/-- The four emoji ranges named literally in the source's character
classes (`\U0001F600-\U0001F64F`, `\U0001F300-\U0001F5FF`,
`\U0001F680-\U0001F6FF`, `\U0001F1E0-\U0001F1FF`). -/
def isEmoji (c : Char) : Bool :=
  let n := c.toNat
  (0x1F600 ≤ n && n ≤ 0x1F64F) || (0x1F300 ≤ n && n ≤ 0x1F5FF) ||
  (0x1F680 ≤ n && n ≤ 0x1F6FF) || (0x1F1E0 ≤ n && n ≤ 0x1F1FF)

/-- Python's `\w` word-character class on the ranges the source
exercises: ASCII alphanumerics, underscore, and CJK ideographs (which
are word characters in Unicode-aware `re`). -/
def pyIsWord (c : Char) : Bool :=
  let n := c.toNat
  (48 ≤ n && n ≤ 57) || (65 ≤ n && n ≤ 90) || (97 ≤ n && n ≤ 122) ||
  n = 95 || isCJK c

/-! ## String utilities (`List Char` level) -/

/-- `str.lstrip(chars)`: drop leading characters belonging to `cs`. -/
def pyLStripChars (cs : List Char) (l : List Char) : List Char :=
  l.dropWhile (fun c => cs.contains c)

/-- Drop trailing characters satisfying `p`. -/
def rdropWhile (p : Char → Bool) (l : List Char) : List Char :=
  (l.reverse.dropWhile p).reverse

/-- `str.strip()`: drop leading and trailing whitespace. -/
def pyStrip (l : List Char) : List Char :=
  rdropWhile pyIsSpace (l.dropWhile pyIsSpace)

/-- `str.strip("-")`: drop leading and trailing hyphens. -/
def pyStripHyphens (l : List Char) : List Char :=
  rdropWhile (fun c => c = '-') (l.dropWhile (fun c => c = '-'))

/-- `re.sub(r"\s+", "-", s)`: replace each maximal whitespace run with
a single hyphen.  The `prevWs` flag records whether the previous
character belonged to a whitespace run already replaced. -/
def subWsHyphenAux : Bool → List Char → List Char
  | _, [] => []
  | prevWs, c :: cs =>
    if pyIsSpace c then
      if prevWs then subWsHyphenAux true cs
      else '-' :: subWsHyphenAux true cs
    else c :: subWsHyphenAux false cs

def subWsHyphen (l : List Char) : List Char := subWsHyphenAux false l

/-- `re.sub(r"-+", "-", s)`: collapse each run of hyphens to one. -/
def collapseHyphensAux : Bool → List Char → List Char
  | _, [] => []
  | prevH, c :: cs =>
    if c = '-' then
      if prevH then collapseHyphensAux true cs
      else '-' :: collapseHyphensAux true cs
    else c :: collapseHyphensAux false cs

def collapseHyphens (l : List Char) : List Char := collapseHyphensAux false l

/-- `content.split("\n")`, Python semantics (`"".split("\n") == [""]`). -/
def splitNl : List Char → List (List Char)
  | [] => [[]]
  | c :: cs =>
    if c = '\n' then [] :: splitNl cs
    else
      match splitNl cs with
      | [] => [[c]]
      | r :: rs => (c :: r) :: rs

/-- Lower-case a string character-wise (`str.lower()`). -/
def pyLower (s : String) : String := ⟨s.data.map pyToLower⟩

/-! ## `urllib.parse.unquote`

Percent-decoding: each `%hh` pair yields a byte; maximal byte runs are
decoded as UTF-8 with `errors='replace'` (each maximal invalid prefix
becomes one U+FFFD); other characters pass through unchanged. -/

def isHexDigit (c : Char) : Bool :=
  let n := c.toNat
  (48 ≤ n && n ≤ 57) || (65 ≤ n && n ≤ 70) || (97 ≤ n && n ≤ 102)

def hexVal (c : Char) : Nat :=
  let n := c.toNat
  if 48 ≤ n && n ≤ 57 then n - 48
  else if 65 ≤ n && n ≤ 70 then n - 55
  else if 97 ≤ n && n ≤ 102 then n - 87
  else 0

/-- A token of the percent-decoding scan: a literal character or a
decoded byte. -/
inductive QTok where
  | ch (c : Char)
  | byte (b : Nat)
deriving DecidableEq

def QTok.isByte : QTok → Bool
  | .byte _ => true
  | .ch _ => false

def QTok.byteVal : QTok → Nat
  | .byte b => b
  | .ch _ => 0

/-- Tokenize `%hh` escapes; a `%` not followed by two hex digits stays
literal, exactly as in `urllib.parse.unquote`. -/
def unquoteTokens : List Char → List QTok
  | [] => []
  | '%' :: h1 :: h2 :: rest =>
    if isHexDigit h1 && isHexDigit h2 then
      .byte (hexVal h1 * 16 + hexVal h2) :: unquoteTokens rest
    else .ch '%' :: unquoteTokens (h1 :: h2 :: rest)
  | c :: rest => .ch c :: unquoteTokens rest

/-- A UTF-8 continuation byte `0x80-0xBF`. -/
def isContByte (b : Nat) : Bool := 0x80 ≤ b && b ≤ 0xBF

/-- The replacement character U+FFFD. -/
def replChar : Char := Char.ofNat 0xFFFD

/-- Decode one UTF-8 sequence with CPython `errors='replace'`
semantics: after a valid lead byte, the maximal run of in-range
continuation bytes is consumed; a complete sequence yields its code
point, an incomplete one yields a single U+FFFD covering the consumed
bytes.  Returns the decoded character and the number of bytes
consumed (always ≥ 1). -/
def utf8DecodeOne (b : Nat) (rest : List Nat) : Char × Nat :=
  if b < 0x80 then (Char.ofNat b, 1)
  else if 0xC2 ≤ b && b ≤ 0xDF then
    match rest with
    | c1 :: _ =>
      if isContByte c1 then (Char.ofNat ((b - 0xC0) * 64 + (c1 - 0x80)), 2)
      else (replChar, 1)
    | [] => (replChar, 1)
  else if 0xE0 ≤ b && b ≤ 0xEF then
    let lo1 := if b = 0xE0 then 0xA0 else 0x80
    let hi1 := if b = 0xED then 0x9F else 0xBF
    match rest with
    | c1 :: rest1 =>
      if lo1 ≤ c1 && c1 ≤ hi1 then
        match rest1 with
        | c2 :: _ =>
          if isContByte c2 then
            (Char.ofNat ((b - 0xE0) * 4096 + (c1 - 0x80) * 64 + (c2 - 0x80)), 3)
          else (replChar, 2)
        | [] => (replChar, 2)
      else (replChar, 1)
    | [] => (replChar, 1)
  else if 0xF0 ≤ b && b ≤ 0xF4 then
    let lo1 := if b = 0xF0 then 0x90 else 0x80
    let hi1 := if b = 0xF4 then 0x8F else 0xBF
    match rest with
    | c1 :: rest1 =>
      if lo1 ≤ c1 && c1 ≤ hi1 then
        match rest1 with
        | c2 :: rest2 =>
          if isContByte c2 then
            match rest2 with
            | c3 :: _ =>
              if isContByte c3 then
                (Char.ofNat ((b - 0xF0) * 262144 + (c1 - 0x80) * 4096 +
                  (c2 - 0x80) * 64 + (c3 - 0x80)), 4)
              else (replChar, 3)
            | [] => (replChar, 3)
          else (replChar, 2)
        | [] => (replChar, 2)
      else (replChar, 1)
    | [] => (replChar, 1)
  else (replChar, 1)

/-- Decode a byte run as UTF-8 with replacement (fuel-driven; each
step consumes at least one byte, so `fuel = length` suffices). -/
def utf8Decode : Nat → List Nat → List Char
  | 0, _ => []
  | _, [] => []
  | fuel + 1, b :: rest =>
    let (c, used) := utf8DecodeOne b rest
    c :: utf8Decode fuel (rest.drop (used - 1))

/-- Decode a token stream: byte runs through `utf8Decode`, literal
characters unchanged. -/
def decodeToks : Nat → List QTok → List Char
  | 0, _ => []
  | _, [] => []
  | fuel + 1, .ch c :: rest => c :: decodeToks fuel rest
  | fuel + 1, .byte b :: rest =>
    let run := (rest.takeWhile QTok.isByte).map QTok.byteVal
    let bs := b :: run
    utf8Decode bs.length bs ++ decodeToks fuel (rest.dropWhile QTok.isByte)

/-- `urllib.parse.unquote` (default UTF-8, `errors='replace'`). -/
def unquote (s : String) : String :=
  let toks := unquoteTokens s.data
  ⟨decodeToks (toks.length + 1) toks⟩

/-! ## Anchor generation and matching (`WorkflowValidator` in `validator.py`) -/

/-- The punctuation class `[：；'".,!?()]` removed by the standard
anchor format. -/
def standardPunct : List Char := ['：', '；', '\'', '"', '.', ',', '!', '?', '(', ')']

/-- The punctuation class `[：；'".,!?]` removed by the Typora-style
anchor format (parentheses are kept). -/
def typoraPunct : List Char := ['：', '；', '\'', '"', '.', ',', '!', '?']

def removeChars (set : List Char) (l : List Char) : List Char :=
  l.filter (fun c => !(set.contains c))

/-- The keep-class of the GitHub-style format
`[^\w\s一-鿿 <emoji ranges>-]` (note the literal trailing
hyphen: hyphens are kept). -/
def githubKeep (c : Char) : Bool :=
  pyIsWord c || pyIsSpace c || isCJK c || isEmoji c || c = '-'

/-- The keep-class of the simplified format
`[^\w\s一-鿿 <emoji ranges>]` (no hyphen). -/
def simpleKeep (c : Char) : Bool :=
  pyIsWord c || pyIsSpace c || isCJK c || isEmoji c

/-- `re.sub(r"\s*\([^)]*\)", "", s)`: delete each leftmost
whitespace-prefixed parenthetical (fuel-driven scanner; every step
consumes at least one character, so `fuel = length + 1` suffices). -/
def removeParensAux : Nat → List Char → List Char
  | 0, l => l
  | _, [] => []
  | fuel + 1, c :: cs =>
    let r1 := (c :: cs).dropWhile pyIsSpace
    match r1 with
    | '(' :: r2 =>
      let r3 := r2.dropWhile (fun d => d ≠ ')')
      match r3 with
      | ')' :: r4 => removeParensAux fuel r4
      | _ => c :: removeParensAux fuel cs
    | _ => c :: removeParensAux fuel cs

def removeParens (l : List Char) : List Char := removeParensAux (l.length + 1) l

/-- `re.sub(r"\s*\(([^)]*)\)", r"-\1", s)`: Typora-style rewrite of a
parenthetical into a hyphen followed by its content. -/
def typoraParensAux : Nat → List Char → List Char
  | 0, l => l
  | _, [] => []
  | fuel + 1, c :: cs =>
    let r1 := (c :: cs).dropWhile pyIsSpace
    match r1 with
    | '(' :: r2 =>
      let inner := r2.takeWhile (fun d => d ≠ ')')
      let r3 := r2.dropWhile (fun d => d ≠ ')')
      match r3 with
      | ')' :: r4 => '-' :: (inner ++ typoraParensAux fuel r4)
      | _ => c :: typoraParensAux fuel cs
    | _ => c :: typoraParensAux fuel cs

def typoraParens (l : List Char) : List Char := typoraParensAux (l.length + 1) l

/-- `list(set(...))`: set semantics; used only through membership, so
the order of the result is irrelevant. -/
def pydedup : List String → List String
  | [] => []
  | x :: xs => if (pydedup xs).contains x then pydedup xs else x :: pydedup xs

def lowerL (l : List Char) : List Char := l.map pyToLower

/-- Standard-format slug: whitespace to hyphen, then punctuation
stripped, then hyphen runs collapsed and outer hyphens stripped
(format 1 of `_generate_possible_anchors`). -/
def standardSlug (l : List Char) : List Char :=
  pyStripHyphens (collapseHyphens (removeChars standardPunct (subWsHyphen l)))

/-- `title.lstrip("# ").strip()`, the first line of
`_generate_possible_anchors`. -/
def titleChars (title : String) : List Char :=
  pyStrip (pyLStripChars ['#', ' '] title.data)

/-- The anchor list accumulated by `_generate_possible_anchors`
before `list(set(filter(None, anchors)))`: the five slugification
formats, with both original-case and lowercased variants except for
the GitHub-style one (already lowercased). -/
def rawAnchors (title : String) : List (List Char) :=
  let t := titleChars title
  let anchor1 := standardSlug t
  let anchors1 := [anchor1, lowerL anchor1]
  let titleNoParens := pyStrip (removeParens t)
  let anchors2 :=
    if titleNoParens ≠ t then
      let anchor2 := standardSlug titleNoParens
      [anchor2, lowerL anchor2]
    else []
  let githubAnchor :=
    pyStripHyphens (collapseHyphens (subWsHyphen ((lowerL t).filter githubKeep)))
  let anchors3 := if githubAnchor ≠ [] then [githubAnchor] else []
  let typoraAnchor :=
    pyStripHyphens (collapseHyphens (removeChars typoraPunct (subWsHyphen (typoraParens t))))
  let anchors4 := [typoraAnchor, lowerL typoraAnchor]
  let simpleAnchor := subWsHyphen (pyStrip (t.filter simpleKeep))
  let anchors5 := if simpleAnchor ≠ [] then [simpleAnchor, lowerL simpleAnchor] else []
  anchors1 ++ anchors2 ++ anchors3 ++ anchors4 ++ anchors5

/-- `WorkflowValidator._generate_possible_anchors`: the five
slugification formats, deduplicated with empties removed. -/
def generate_possible_anchors (title : String) : List String :=
  pydedup (((rawAnchors title).filter (fun a => a ≠ [])).map String.mk)

/-- `anchor.lower().strip("-")`, the normalisation of the lenient
third tier of `_is_anchor_valid`. -/
def normalizeAnchor (s : String) : String := ⟨pyStripHyphens (lowerL s.data)⟩

/-- `WorkflowValidator._is_anchor_valid`: literal membership, else
percent-decoded membership, else case- and outer-hyphen-insensitive
comparison against each valid anchor. -/
def is_anchor_valid (anchor : String) (validAnchors : List String) : Bool :=
  if validAnchors.contains anchor then true
  else if validAnchors.contains (unquote anchor) then true
  else validAnchors.any (fun v => normalizeAnchor anchor = normalizeAnchor v)

/-! ## Issues, link integrity and heading hierarchy -/

/-- A structured finding, as appended to the per-category issue lists
of `validation_results`. -/
structure Issue where
  file : String
  line : Option Nat := none
  type : String
  message : String
deriving DecidableEq

/-- The scanner of `re.findall(r"\[([^\]]+)\]\(#([^)]+)\)", content)`:
leftmost, non-overlapping `(link text, anchor)` matches.  Both
character classes exclude their closing delimiter, so the greedy
maximal run is the only possible match at a position and the embedding
is exactly equivalent to the regex. -/
def findInternalLinksAux : Nat → List Char → List (List Char × List Char)
  | 0, _ => []
  | _, [] => []
  | fuel + 1, c :: cs =>
    if c = '[' then
      let txt := cs.takeWhile (fun d => d ≠ ']')
      let r1 := cs.dropWhile (fun d => d ≠ ']')
      match txt, r1 with
      | _ :: _, ']' :: '(' :: '#' :: r2 =>
        let anchor := r2.takeWhile (fun d => d ≠ ')')
        let r3 := r2.dropWhile (fun d => d ≠ ')')
        match anchor, r3 with
        | _ :: _, ')' :: r4 => (txt, anchor) :: findInternalLinksAux fuel r4
        | _, _ => findInternalLinksAux fuel cs
      | _, _ => findInternalLinksAux fuel cs
    else findInternalLinksAux fuel cs

def findInternalLinks (content : String) : List (List Char × List Char) :=
  findInternalLinksAux (content.data.length + 1) content.data

/-- Does a line start with `#` (`line.startswith("#")`)? -/
def startsWithHash : List Char → Bool
  | '#' :: _ => true
  | _ => false

/-- The anchor set collected by `_check_link_integrity` (lines
604-611 of `validator.py`): every line starting with `#` — with no
code-fence tracking — contributes the anchors of its
`lstrip("# ").strip()` title. -/
def collectAnchors (content : String) : List String :=
  (splitNl content.data).foldr
    (fun line acc =>
      if startsWithHash line then
        generate_possible_anchors ⟨pyStrip (pyLStripChars ['#', ' '] line)⟩ ++ acc
      else acc) []

/-- The internal-link portion of `WorkflowValidator._check_link_integrity`:
one `broken_link` issue per internal link whose anchor fails
`_is_anchor_valid` against the collected anchor set.  (The
external-file-link portion of the method reads other files from disk
and is an external collaborator.) -/
def internal_link_issues (file content : String) : List Issue :=
  let anchors := collectAnchors content
  (findInternalLinks content).filterMap (fun p =>
    if is_anchor_valid ⟨p.2⟩ anchors then none
    else some { file := file, type := "broken_link",
                message := "断开的内部链接: [" ++ String.mk p.1 ++ "](#" ++ String.mk p.2 ++ ")" })

/-- `line.strip().startswith("```")`: the code-fence toggle test. -/
def isFenceLine (l : List Char) : Bool :=
  "```".data.isPrefixOf (pyStrip l)

/-- `line.startswith("#") and " " in line`: a heading line for the
hierarchy check. -/
def isHeadingLine (l : List Char) : Bool :=
  startsWithHash l && l.contains ' '

/-- Pair each element with its 1-based position. -/
def numberFrom (n : Nat) : List α → List (Nat × α)
  | [] => []
  | x :: xs => (n, x) :: numberFrom (n + 1) xs

def headingIssue (file : String) (i prev level : Nat) : Issue :=
  { file := file, line := some i, type := "heading_hierarchy",
    message := "标题层次跳跃: 从 H" ++ toString prev ++ " 直接跳到 H" ++ toString level }

/-- The line scan of `_check_heading_hierarchy`: fence lines toggle
`in_code_block` and are skipped, fenced lines are skipped, and a
heading whose level jumps by more than one from the previous level
emits a `heading_hierarchy` issue. -/
def hierScan (file : String) : List (Nat × List Char) → Nat → Bool → List Issue
  | [], _, _ => []
  | (i, line) :: rest, prev, inCode =>
    if isFenceLine line then hierScan file rest prev (!inCode)
    else if inCode then hierScan file rest prev inCode
    else if isHeadingLine line then
      let level := (line.takeWhile (fun c => c = '#')).length
      (if prev + 1 < level then [headingIssue file i prev level] else []) ++
        hierScan file rest level inCode
    else hierScan file rest prev inCode

/-- `WorkflowValidator._check_heading_hierarchy`. -/
def check_heading_hierarchy (file content : String) : List Issue :=
  hierScan file (numberFrom 1 (splitNl content.data)) 0 false

/-- Line `i` (1-based) lies inside a fenced code block: an odd number
of fence-toggle lines precede it. -/
def inFence (content : String) (i : Nat) : Bool :=
  ((splitNl content.data).take (i - 1)).countP isFenceLine % 2 = 1

/-- Modelled from the spec: the anchor collection of §4.1's edge-case
rule ("headings inside fenced code blocks must never be treated as
anchors"), i.e. `collectAnchors` with the same fence toggle that
`_check_heading_hierarchy` uses.  This fence-aware collection is
absent from `_check_link_integrity` in the source. -/
def specCollectAnchorsAux : List (List Char) → Bool → List String
  | [], _ => []
  | line :: rest, inCode =>
    if isFenceLine line then specCollectAnchorsAux rest (!inCode)
    else if inCode then specCollectAnchorsAux rest inCode
    else if startsWithHash line then
      generate_possible_anchors ⟨pyStrip (pyLStripChars ['#', ' '] line)⟩ ++
        specCollectAnchorsAux rest inCode
    else specCollectAnchorsAux rest inCode

/-- Modelled from the spec: internal-link validation as §4.1 requires
it, with fenced heading lines excluded from the anchor set. -/
def spec_internal_link_issues (file content : String) : List Issue :=
  let anchors := specCollectAnchorsAux (splitNl content.data) false
  (findInternalLinks content).filterMap (fun p =>
    if is_anchor_valid ⟨p.2⟩ anchors then none
    else some { file := file, type := "broken_link",
                message := "断开的内部链接: [" ++ String.mk p.1 ++ "](#" ++ String.mk p.2 ++ ")" })

/-! ## Validation results and the final report -/

structure ValidationResults where
  syntaxIssues : List Issue
  syntaxPassed : Nat
  syntaxFailed : Nat
  logicIssues : List Issue
  logicPassed : Nat
  logicFailed : Nat
  depIssues : List Issue
  depPassed : Nat
  depFailed : Nat
  qualityScore : ℚ
deriving DecidableEq

/-- `WorkflowValidator._get_all_issues`. -/
def get_all_issues (r : ValidationResults) : List Issue :=
  r.syntaxIssues ++ r.logicIssues ++ r.depIssues

/-- The fixed critical-type list of `_get_critical_issues`. -/
def critical_types : List String :=
  ["missing_main_workflow", "python_syntax", "missing_section", "broken_link"]

/-- `WorkflowValidator._get_critical_issues`. -/
def get_critical_issues (r : ValidationResults) : List Issue :=
  (get_all_issues r).filter (fun issue => critical_types.contains issue.type)

structure ReportSummary where
  overall_status : String
  total_issues : Nat
  critical_issues : Nat
  quality_score : ℚ
deriving DecidableEq

structure StageReport where
  status : String
  total_checks : Nat
  passed : Nat
  failed : Nat
  issues : List Issue
deriving DecidableEq

/-- `WorkflowValidator._get_quality_grade` (the validator's own
thresholds, distinct from the manager's). -/
def validator_quality_grade (score : ℚ) : String :=
  if 17 / 2 ≤ score then "优秀"
  else if 7 ≤ score then "良好"
  else if 6 ≤ score then "及格"
  else "不及格"

structure QualityReport where
  overall_score : ℚ
  grade : String
  details : List (String × ℚ) := []
deriving DecidableEq

structure ValidationReport where
  summary : ReportSummary
  syntax_validation : StageReport
  logic_validation : StageReport
  dependency_validation : StageReport
  quality_assessment : QualityReport
deriving DecidableEq

/-- `WorkflowValidator._generate_validation_report`. -/
def generate_validation_report (r : ValidationResults) : ValidationReport :=
  { summary :=
      { overall_status := if (get_critical_issues r).length = 0 then "PASS" else "FAIL"
        total_issues := (get_all_issues r).length
        critical_issues := (get_critical_issues r).length
        quality_score := r.qualityScore }
    syntax_validation :=
      { status := if r.syntaxFailed = 0 then "PASS" else "FAIL"
        total_checks := r.syntaxPassed + r.syntaxFailed
        passed := r.syntaxPassed
        failed := r.syntaxFailed
        issues := r.syntaxIssues }
    logic_validation :=
      { status := if r.logicFailed = 0 then "PASS" else "FAIL"
        total_checks := r.logicPassed + r.logicFailed
        passed := r.logicPassed
        failed := r.logicFailed
        issues := r.logicIssues }
    dependency_validation :=
      { status := if r.depFailed = 0 then "PASS" else "FAIL"
        total_checks := r.depPassed + r.depFailed
        passed := r.depPassed
        failed := r.depFailed
        issues := r.depIssues }
    quality_assessment :=
      { overall_score := r.qualityScore
        grade := validator_quality_grade r.qualityScore } }

/-! ## Built-in quality assessment (`WorkflowValidator.assess_quality`)

The file-system scans (`glob`, `read_text`) are external
collaborators; each assessor receives the outcome of its scans as
explicit signals and computes the score exactly as the source does. -/

/-- The scan outcomes consumed by `_assess_completeness`. -/
structure CompletenessSignals where
  hasTemplateFile : Bool
  hasReadme : Bool
  hasScriptFile : Bool
  hasTemplatesDir : Bool
  hasDocsDir : Bool
  hasToolsDir : Bool
  hasTestFile : Bool
  hasConfigFile : Bool
deriving DecidableEq

def CompletenessSignals.existingDirs (s : CompletenessSignals) : Nat :=
  (if s.hasTemplatesDir then 1 else 0) + (if s.hasDocsDir then 1 else 0) +
    (if s.hasToolsDir then 1 else 0)

/-- `WorkflowValidator._assess_completeness`: six declared checks, the
script check worth 2 points, result `(score / 6) * 10` with no upper
clamp. -/
def validator_assess_completeness (s : CompletenessSignals) : ℚ :=
  let score : ℚ :=
    (if s.hasTemplateFile then 1 else 0) + (if s.hasReadme then 1 else 0) +
    (if s.hasScriptFile then 2 else 0) + (s.existingDirs : ℚ) / 3 +
    (if s.hasTestFile then 1 else 0) + (if s.hasConfigFile then 1 else 0)
  score / 6 * 10

/-- The five keyword-scan outcomes consumed by `_assess_usability`. -/
structure UsabilitySignals where
  usageGuidance : Bool
  exampleCode : Bool
  errorHandlingDocs : Bool
  configurationDocs : Bool
  faqDocs : Bool
deriving DecidableEq

/-- `WorkflowValidator._assess_usability`: five checks worth one point
each, result `(score / 5) * 10`. -/
def validator_assess_usability (s : UsabilitySignals) : ℚ :=
  let score : ℚ :=
    (if s.usageGuidance then 1 else 0) + (if s.exampleCode then 1 else 0) +
    (if s.errorHandlingDocs then 1 else 0) + (if s.configurationDocs then 1 else 0) +
    (if s.faqDocs then 1 else 0)
  score / 5 * 10

/-- Per-file statistics extracted from one successfully read Python
file: total line count and the counts produced by the comment-line
predicate and the four `re.findall` calls of
`_check_object_oriented_design`.  Files whose read raises are caught
per file and contribute nothing, so they simply do not appear. -/
structure PyFileStats where
  totalLines : Nat
  commentLines : Nat
  classCount : Nat
  inheritanceCount : Nat
  methodCount : Nat
  decoratorCount : Nat
deriving DecidableEq

def sumTotalLines (files : List PyFileStats) : Nat :=
  (files.map PyFileStats.totalLines).sum

def sumCommentLines (files : List PyFileStats) : Nat :=
  (files.map PyFileStats.commentLines).sum

/-- `WorkflowValidator._check_object_oriented_design`: graduated
credit 0.5 / 0.2 / 0.2 / 0.1, clamped to at most 1. -/
def validator_check_oo_design (files : List PyFileStats) : ℚ :=
  if files = [] then 0
  else
    min 1
      ((if 0 < (files.map PyFileStats.classCount).sum then 1 / 2 else 0) +
       (if 0 < (files.map PyFileStats.inheritanceCount).sum then 1 / 5 else 0) +
       (if 0 < (files.map PyFileStats.methodCount).sum then 1 / 5 else 0) +
       (if 0 < (files.map PyFileStats.decoratorCount).sum then 1 / 10 else 0))

/-- `WorkflowValidator._assess_maintainability`: four one-point
checks, result `(score / 4) * 10`.  `versionFound` / `loggingFound`
are the outcomes of the Markdown and Python keyword scans. -/
def validator_assess_maintainability (files : List PyFileStats)
    (versionFound loggingFound : Bool) : ℚ :=
  let commentPts : ℚ :=
    if files ≠ [] ∧ 0 < sumTotalLines files ∧
        (1 : ℚ) / 10 ≤ (sumCommentLines files : ℚ) / (sumTotalLines files : ℚ)
    then 1 else 0
  let ooPts : ℚ := if 0 < validator_check_oo_design files then 1 else 0
  let score := commentPts + ooPts + (if versionFound then 1 else 0) +
    (if loggingFound then 1 else 0)
  score / 4 * 10

/-- The four scan outcomes consumed by `_assess_documentation`. -/
structure DocumentationSignals where
  readmeExists : Bool
  docStructure : Bool
  codeDocs : Bool
  docFreshness : Bool
deriving DecidableEq

/-- `WorkflowValidator._assess_documentation`: four one-point checks,
result `(score / 4) * 10`. -/
def validator_assess_documentation (s : DocumentationSignals) : ℚ :=
  let score : ℚ :=
    (if s.readmeExists then 1 else 0) + (if s.docStructure then 1 else 0) +
    (if s.codeDocs then 1 else 0) + (if s.docFreshness then 1 else 0)
  score / 4 * 10

/-- The three scan outcomes consumed by `_assess_extensibility`. -/
structure ExtensibilitySignals where
  configSupport : Bool
  templateSystem : Bool
  pluginKeywords : Bool
deriving DecidableEq

/-- `WorkflowValidator._assess_extensibility`: three one-point checks,
result `(score / 3) * 10`. -/
def validator_assess_extensibility (s : ExtensibilitySignals) : ℚ :=
  let score : ℚ :=
    (if s.configSupport then 1 else 0) + (if s.templateSystem then 1 else 0) +
    (if s.pluginKeywords then 1 else 0)
  score / 3 * 10

/-- All scan outcomes of one `WorkflowValidator.assess_quality` run
(plugin overlay disabled). -/
structure ValidatorSignals where
  completeness : CompletenessSignals
  usability : UsabilitySignals
  pyFiles : List PyFileStats
  versionFound : Bool
  loggingFound : Bool
  documentation : DocumentationSignals
  extensibility : ExtensibilitySignals
deriving DecidableEq

/-- The weighted total of `WorkflowValidator.assess_quality`
(lines 1246-1258): `Σ score × weight` over the five dimensions with
weights 0.30 / 0.25 / 0.25 / 0.10 / 0.10 and no clamp. -/
def validator_quality_score (s : ValidatorSignals) : ℚ :=
  validator_assess_completeness s.completeness * (3 / 10) +
  validator_assess_usability s.usability * (1 / 4) +
  validator_assess_maintainability s.pyFiles s.versionFound s.loggingFound * (1 / 4) +
  validator_assess_documentation s.documentation * (1 / 10) +
  validator_assess_extensibility s.extensibility * (1 / 10)

/-! ## The five standard quality plugins
(`tools/plugins/quality_assessment/*.py`)

Each plugin validates the directory first
(`validate_workflow_dir`, modelled by the `validDir` flag) and then
scores its scan signals; every `assess` clamps with
`min(score, max_score)` where `max_score = 10.0`. -/

/-- The `{score, passed_checks, failed_checks, recommendations}`
record returned by `get_assessment_details`. -/
structure AssessmentDetails where
  score : ℚ
  passed_checks : List String
  failed_checks : List String
  recommendations : List String
deriving DecidableEq

/-- The details record every plugin returns on an invalid directory. -/
def invalidDirDetails : AssessmentDetails :=
  { score := 0, passed_checks := [], failed_checks := ["工作流目录无效"],
    recommendations := ["确保提供有效的工作流目录路径"] }

/-- `CompletenessPlugin.assess`: 1.67 / 1.67 / 3.33 / (proportional
1.67) / 1.67 / 1.67, clamped to 10. -/
def completeness_plugin_assess (validDir : Bool) (s : CompletenessSignals) : ℚ :=
  if !validDir then 0
  else
    min
      ((if s.hasTemplateFile then 167 / 100 else 0) +
       (if s.hasReadme then 167 / 100 else 0) +
       (if s.hasScriptFile then 333 / 100 else 0) +
       (s.existingDirs : ℚ) / 3 * (167 / 100) +
       (if s.hasTestFile then 167 / 100 else 0) +
       (if s.hasConfigFile then 167 / 100 else 0))
      10

/-- `CompletenessPlugin.get_assessment_details`. -/
def completeness_plugin_details (validDir : Bool) (s : CompletenessSignals) :
    AssessmentDetails :=
  if !validDir then invalidDirDetails
  else
    let existing :=
      (if s.hasTemplatesDir then ["templates"] else []) ++
      (if s.hasDocsDir then ["docs"] else []) ++
      (if s.hasToolsDir then ["tools"] else [])
    let missing :=
      (if s.hasTemplatesDir then [] else ["templates"]) ++
      (if s.hasDocsDir then [] else ["docs"]) ++
      (if s.hasToolsDir then [] else ["tools"])
    let passed :=
      (if s.hasTemplateFile then ["主要模板文件存在"] else []) ++
      (if s.hasReadme then ["README文档存在"] else []) ++
      (if s.hasScriptFile then ["工具脚本文件存在"] else []) ++
      (if existing ≠ [] then ["核心目录存在: " ++ String.intercalate ", " existing] else []) ++
      (if s.hasTestFile then ["测试文件存在"] else []) ++
      (if s.hasConfigFile then ["配置文件存在"] else [])
    let failed :=
      (if s.hasTemplateFile then [] else ["主要模板文件缺失"]) ++
      (if s.hasReadme then [] else ["README文档缺失"]) ++
      (if s.hasScriptFile then [] else ["工具脚本文件缺失"]) ++
      (if missing ≠ [] then ["核心目录缺失: " ++ String.intercalate ", " missing] else []) ++
      (if s.hasTestFile then [] else ["测试文件缺失"]) ++
      (if s.hasConfigFile then [] else ["配置文件缺失"])
    let recs :=
      (if s.hasTemplateFile then [] else ["创建主要的工作流模板文件 (如 *_template.md)"]) ++
      (if s.hasReadme then [] else ["创建README.md文档说明工作流用途和使用方法"]) ++
      (if s.hasScriptFile then [] else ["添加Python或PowerShell脚本来支持工作流自动化"]) ++
      (if missing ≠ [] then ["创建缺失的核心目录: " ++ String.intercalate ", " missing] else []) ++
      (if s.hasTestFile then [] else ["添加测试文件来验证工作流功能"]) ++
      (if s.hasConfigFile then [] else ["添加配置文件来支持工作流自定义设置"])
    { score := completeness_plugin_assess validDir s, passed_checks := passed,
      failed_checks := failed, recommendations := recs }

/-- `UsabilityPlugin.assess`: five checks worth 2 points each,
clamped to 10. -/
def usability_plugin_assess (validDir : Bool) (s : UsabilitySignals) : ℚ :=
  if !validDir then 0
  else
    min
      ((if s.usageGuidance then 2 else 0) + (if s.exampleCode then 2 else 0) +
       (if s.errorHandlingDocs then 2 else 0) + (if s.configurationDocs then 2 else 0) +
       (if s.faqDocs then 2 else 0))
      10

/-- `UsabilityPlugin.get_assessment_details`. -/
def usability_plugin_details (validDir : Bool) (s : UsabilitySignals) :
    AssessmentDetails :=
  if !validDir then invalidDirDetails
  else
    { score := usability_plugin_assess validDir s
      passed_checks :=
        (if s.usageGuidance then ["使用指导文档存在"] else []) ++
        (if s.exampleCode then ["示例代码存在"] else []) ++
        (if s.errorHandlingDocs then ["错误处理说明存在"] else []) ++
        (if s.configurationDocs then ["配置说明存在"] else []) ++
        (if s.faqDocs then ["FAQ或故障排除文档存在"] else [])
      failed_checks :=
        (if s.usageGuidance then [] else ["使用指导文档缺失"]) ++
        (if s.exampleCode then [] else ["示例代码缺失"]) ++
        (if s.errorHandlingDocs then [] else ["错误处理说明缺失"]) ++
        (if s.configurationDocs then [] else ["配置说明缺失"]) ++
        (if s.faqDocs then [] else ["FAQ或故障排除文档缺失"])
      recommendations :=
        (if s.usageGuidance then [] else ["添加使用指导或快速开始章节到README.md中"]) ++
        (if s.exampleCode then [] else ["在文档中添加代码示例和使用演示"]) ++
        (if s.errorHandlingDocs then [] else ["添加错误处理和异常情况的说明文档"]) ++
        (if s.configurationDocs then [] else ["添加配置文件和自定义设置的说明"]) ++
        (if s.faqDocs then [] else ["添加常见问题解答或故障排除指南"]) }

/-- `MaintainabilityPlugin._check_code_comment_ratio`: 2.5 at a ratio
of at least 10%, proportional credit `(ratio / 0.1) * 2.5` below. -/
def plugin_check_comment_ratio (files : List PyFileStats) : ℚ :=
  if files = [] then 0
  else
    let t : ℚ := (sumTotalLines files : ℚ)
    if t = 0 then 0
    else
      let ratio := (sumCommentLines files : ℚ) / t
      if 1 / 10 ≤ ratio then 5 / 2 else ratio / (1 / 10) * (5 / 2)

/-- `MaintainabilityPlugin._check_object_oriented_design`: graduated
credit 1.25 / 0.5 / 0.5 / 0.25, clamped to at most 2.5. -/
def plugin_check_oo_design (files : List PyFileStats) : ℚ :=
  if files = [] then 0
  else
    min (5 / 2)
      ((if 0 < (files.map PyFileStats.classCount).sum then 5 / 4 else 0) +
       (if 0 < (files.map PyFileStats.inheritanceCount).sum then 1 / 2 else 0) +
       (if 0 < (files.map PyFileStats.methodCount).sum then 1 / 2 else 0) +
       (if 0 < (files.map PyFileStats.decoratorCount).sum then 1 / 4 else 0))

/-- `MaintainabilityPlugin.assess`: comment ratio + object-oriented
design + version info + logging, clamped to 10. -/
def maintainability_plugin_assess (validDir : Bool) (files : List PyFileStats)
    (versionFound loggingFound : Bool) : ℚ :=
  if !validDir then 0
  else
    min
      (plugin_check_comment_ratio files + plugin_check_oo_design files +
       (if versionFound then 5 / 2 else 0) + (if loggingFound then 5 / 2 else 0))
      10

/-- Numeric score formatting inside detail strings (abstracts
Python's `"{:.1f}"`; the claims never inspect these strings). -/
def fmtScore (q : ℚ) : String := toString q

/-- `MaintainabilityPlugin.get_assessment_details`.  Note the partial
branches: a comment or object-oriented score strictly between 0 and
2.5 appends to `passed_checks` and to `recommendations` while leaving
`failed_checks` untouched. -/
def maintainability_plugin_details (validDir : Bool) (files : List PyFileStats)
    (versionFound loggingFound : Bool) : AssessmentDetails :=
  if !validDir then invalidDirDetails
  else
    let commentScore := plugin_check_comment_ratio files
    let ooScore := plugin_check_oo_design files
    let commentPassed :=
      if 5 / 2 ≤ commentScore then ["代码注释率充足"]
      else if 0 < commentScore then
        ["代码注释率部分达标 (" ++ fmtScore commentScore ++ "/2.5分)"]
      else []
    let commentFailed := if 5 / 2 ≤ commentScore ∨ 0 < commentScore then [] else ["代码注释率不足"]
    let commentRecs :=
      if 5 / 2 ≤ commentScore then []
      else if 0 < commentScore then ["提高代码注释率到10%以上"]
      else ["为Python代码添加详细的注释和文档字符串"]
    let ooPassed :=
      if 5 / 2 ≤ ooScore then ["面向对象设计完善"]
      else if 0 < ooScore then ["面向对象设计部分采用 (" ++ fmtScore ooScore ++ "/2.5分)"]
      else []
    let ooFailed := if 5 / 2 ≤ ooScore ∨ 0 < ooScore then [] else ["未采用面向对象设计"]
    let ooRecs :=
      if 5 / 2 ≤ ooScore then []
      else if 0 < ooScore then ["完善面向对象设计，增加类的继承和方法封装"]
      else ["重构代码使用类和方法，提高代码的模块化和可维护性"]
    { score := maintainability_plugin_assess validDir files versionFound loggingFound
      passed_checks :=
        commentPassed ++ ooPassed ++
        (if versionFound then ["版本控制信息存在"] else []) ++
        (if loggingFound then ["日志记录机制存在"] else [])
      failed_checks :=
        commentFailed ++ ooFailed ++
        (if versionFound then [] else ["版本控制信息缺失"]) ++
        (if loggingFound then [] else ["日志记录机制缺失"])
      recommendations :=
        commentRecs ++ ooRecs ++
        (if versionFound then [] else ["在文档或代码中添加版本号和更新日志"]) ++
        (if loggingFound then [] else ["为Python脚本添加日志记录功能，便于调试和监控"]) }

/-- `DocumentationPlugin.assess`: four checks worth 2.5 each, clamped
to 10. -/
def documentation_plugin_assess (validDir : Bool) (s : DocumentationSignals) : ℚ :=
  if !validDir then 0
  else
    min
      ((if s.readmeExists then 5 / 2 else 0) + (if s.docStructure then 5 / 2 else 0) +
       (if s.codeDocs then 5 / 2 else 0) + (if s.docFreshness then 5 / 2 else 0))
      10

/-- `DocumentationPlugin.get_assessment_details`. -/
def documentation_plugin_details (validDir : Bool) (s : DocumentationSignals) :
    AssessmentDetails :=
  if !validDir then invalidDirDetails
  else
    { score := documentation_plugin_assess validDir s
      passed_checks :=
        (if s.readmeExists then ["README文件存在且内容充实"] else []) ++
        (if s.docStructure then ["文档结构完整"] else []) ++
        (if s.codeDocs then ["代码文档充足"] else []) ++
        (if s.docFreshness then ["文档更新及时"] else [])
      failed_checks :=
        (if s.readmeExists then [] else ["README文件缺失或内容不足"]) ++
        (if s.docStructure then [] else ["文档结构不完整"]) ++
        (if s.codeDocs then [] else ["代码文档不足"]) ++
        (if s.docFreshness then [] else ["文档可能过期"])
      recommendations :=
        (if s.readmeExists then [] else ["创建或完善README.md文件，添加详细的项目说明"]) ++
        (if s.docStructure then [] else ["确保文档包含目标、使用方法、操作步骤等基本章节"]) ++
        (if s.codeDocs then [] else ["为Python代码添加文档字符串和详细注释"]) ++
        (if s.docFreshness then [] else ["在文档中添加更新时间信息，保持文档的时效性"]) }

/-- `ExtensibilityPlugin.assess`: 3.33 / 3.33 / 3.34, clamped to 10. -/
def extensibility_plugin_assess (validDir : Bool) (s : ExtensibilitySignals) : ℚ :=
  if !validDir then 0
  else
    min
      ((if s.configSupport then 333 / 100 else 0) +
       (if s.templateSystem then 333 / 100 else 0) +
       (if s.pluginKeywords then 167 / 50 else 0))
      10

/-- `ExtensibilityPlugin.get_assessment_details`. -/
def extensibility_plugin_details (validDir : Bool) (s : ExtensibilitySignals) :
    AssessmentDetails :=
  if !validDir then invalidDirDetails
  else
    { score := extensibility_plugin_assess validDir s
      passed_checks :=
        (if s.configSupport then ["配置文件支持存在"] else []) ++
        (if s.templateSystem then ["模板文件系统存在"] else []) ++
        (if s.pluginKeywords then ["插件或扩展点存在"] else [])
      failed_checks :=
        (if s.configSupport then [] else ["配置文件支持缺失"]) ++
        (if s.templateSystem then [] else ["模板文件系统缺失"]) ++
        (if s.pluginKeywords then [] else ["插件或扩展点缺失"])
      recommendations :=
        (if s.configSupport then [] else ["添加配置文件(JSON/YAML)支持用户自定义设置"]) ++
        (if s.templateSystem then [] else ["设计模板文件系统，支持工作流定制化生成"]) ++
        (if s.pluginKeywords then [] else ["设计插件接口或扩展点，支持功能模块化扩展"]) }

/-! ## `QualityAssessmentManager`
(`tools/plugins/quality_assessment_manager.py`)

`assess_quality` iterates the plugin registry (a dict, i.e. an
insertion-ordered association list) and calls `assess` then
`get_assessment_details` on each plugin inside one `try`.  The
observable behaviour of that pair of calls on the given directory is
one of: both succeed, `assess` raises, or `get_assessment_details`
raises after `assess` returned a score — in the two error cases the
`except` records score `0.0` and a synthetic details record. -/

inductive PluginRun where
  | ok (score : ℚ) (details : AssessmentDetails)
  | assessError (msg : String)
  | detailsError (score : ℚ) (msg : String)
deriving DecidableEq

/-- The synthetic record written by the `except` branch of
`assess_quality`. -/
def syntheticDetails (msg : String) : AssessmentDetails :=
  { score := 0, passed_checks := [], failed_checks := ["插件执行失败: " ++ msg],
    recommendations := ["检查插件配置和工作流目录权限"] }

/-- The dimension score recorded for one plugin run (`0.0` on either
exception; a `get_assessment_details` failure overwrites the already
recorded `assess` score with `0.0`). -/
def PluginRun.finalScore : PluginRun → ℚ
  | .ok s _ => s
  | .assessError _ => 0
  | .detailsError _ _ => 0

/-- The details recorded for one plugin run. -/
def PluginRun.finalDetails : PluginRun → AssessmentDetails
  | .ok _ d => d
  | .assessError e => syntheticDetails e
  | .detailsError _ e => syntheticDetails e

/-- The plugin loop of `assess_quality`: accumulates
`dimension_scores` and `plugin_details` in registry order, never
aborting on an erroring plugin. -/
def runPlugins : List (String × PluginRun) →
    List (String × ℚ) × List (String × AssessmentDetails)
  | [] => ([], [])
  | (n, r) :: rest =>
    let (ds, pd) := runPlugins rest
    ((n, r.finalScore) :: ds, (n, r.finalDetails) :: pd)

/-- `self.weights.get(dimension, 0.0)`. -/
def weightsGet (weights : List (String × ℚ)) (dim : String) : ℚ :=
  (weights.lookup dim).getD 0

/-- `QualityAssessmentManager._calculate_weighted_score`: weighted
sum, re-normalised by the total applied weight when that total is
positive and differs from 1, clamped above by 10.  This models the
source's float arithmetic as exact rationals — exact for the all-zero
inputs of C2; the IEEE-754 double accumulation itself, whose rounding
makes the result order-dependent, is modelled separately by
`calculate_weighted_score_f64`. -/
def calculate_weighted_score (weights : List (String × ℚ))
    (dims : List (String × ℚ)) : ℚ :=
  let totalScore := (dims.map (fun p => p.2 * weightsGet weights p.1)).sum
  let totalWeight := (dims.map (fun p => weightsGet weights p.1)).sum
  let ts := if 0 < totalWeight ∧ totalWeight ≠ 1 then totalScore / totalWeight
            else totalScore
  min 10 ts

/-- `QualityAssessmentManager._get_quality_grade`. -/
def manager_quality_grade (score : ℚ) : String :=
  if 9 ≤ score then "优秀"
  else if 8 ≤ score then "良好"
  else if 7 ≤ score then "中等"
  else if 6 ≤ score then "一般"
  else "需要改进"

/-- The default dimension weights set at manager construction. -/
def default_weights : List (String × ℚ) :=
  [("completeness", 3 / 10), ("usability", 1 / 4), ("maintainability", 1 / 4),
   ("documentation", 1 / 10), ("extensibility", 1 / 10)]

/-- Python's `max(d, key=d.get)` over an association list: the first
key attaining the maximal value. -/
def argBest : List (String × ℚ) → Option (String × ℚ)
  | [] => none
  | p :: rest =>
    match argBest rest with
    | none => some p
    | some q => if p.2 < q.2 then some q else some p

/-- Python's `min(d, key=d.get)`: the first key attaining the minimal
value. -/
def argWorst : List (String × ℚ) → Option (String × ℚ)
  | [] => none
  | p :: rest =>
    match argWorst rest with
    | none => some p
    | some q => if q.2 < p.2 then some q else some p

structure ManagerSummary where
  total_checks : Nat
  passed_checks : Nat
  failed_checks : Nat
  best_dimension : String
  worst_dimension : String
  top_recommendations : List String
deriving DecidableEq

/-- `QualityAssessmentManager._generate_summary`. -/
def generate_summary (dims : List (String × ℚ))
    (details : List (String × AssessmentDetails)) : ManagerSummary :=
  let totalPassed := (details.map (fun p => p.2.passed_checks.length)).sum
  let totalFailed := (details.map (fun p => p.2.failed_checks.length)).sum
  let allRecs := details.foldr (fun p acc => p.2.recommendations ++ acc) []
  { total_checks := totalPassed + totalFailed
    passed_checks := totalPassed
    failed_checks := totalFailed
    best_dimension := ((argBest dims).map Prod.fst).getD "无"
    worst_dimension := ((argWorst dims).map Prod.fst).getD "无"
    top_recommendations := (pydedup allRecs).take 5 }

structure ManagerResult where
  overall_score : ℚ
  grade : String
  dimension_scores : List (String × ℚ)
  plugin_details : List (String × AssessmentDetails)
  weights : List (String × ℚ)
  summary : ManagerSummary
deriving DecidableEq

/-- `QualityAssessmentManager.assess_quality` on an existing
directory, over the observable behaviours of the registered plugins. -/
def assess_quality (weights : List (String × ℚ))
    (plugins : List (String × PluginRun)) : ManagerResult :=
  let dims := (runPlugins plugins).1
  let pd := (runPlugins plugins).2
  let total := calculate_weighted_score weights dims
  { overall_score := total
    grade := manager_quality_grade total
    dimension_scores := dims
    plugin_details := pd
    weights := weights
    summary := generate_summary dims pd }

/-- Python `dict.update`: existing keys are overwritten in place
(order preserved), new keys are appended in order. -/
def dictUpdate {α : Type} (cur new : List (String × α)) : List (String × α) :=
  cur.map (fun p => (p.1, ((new.lookup p.1).getD p.2))) ++
    new.filter (fun p => !(cur.any (fun q => q.1 == p.1)))

/-- `QualityAssessmentManager.update_weights`: the first component
records whether the out-of-tolerance warning was logged
(`not (0.8 ≤ Σ new ≤ 1.2)`); the new weights are applied
unconditionally. -/
def update_weights (cur new : List (String × ℚ)) : Bool × List (String × ℚ) :=
  let totalWeight := (new.map Prod.snd).sum
  ((if 4 / 5 ≤ totalWeight ∧ totalWeight ≤ 6 / 5 then false else true),
    dictUpdate cur new)

/-! ## `PluginManager.load_config` (`validator_plugins.py`) -/

/-- A configuration value of the extended-plugin YAML config. -/
inductive CVal where
  | strV (s : String)
  | listV (l : List String)
  | mapV (m : List (String × ℚ))
deriving DecidableEq

/-- The built-in defaults of `PluginManager.load_config`. -/
def default_plugin_config : List (String × CVal) :=
  [("enabled_plugins", .listV ["security", "performance", "test_coverage"]),
   ("plugin_weights", .mapV [("security", 1), ("performance", 1), ("test_coverage", 1)]),
   ("custom_plugins_dir", .strV "plugins/")]

/-- `PluginManager.load_config`: the input is `none` when no config
path is given or the file does not exist, otherwise the outcome of
`yaml.safe_load`.  Defaults are set first; a successful parse is
merged over them with `dict.update`; a parse failure is logged and
the defaults stand. -/
def load_config (configFile : Option (Except String (List (String × CVal)))) :
    List (String × CVal) :=
  match configFile with
  | none => default_plugin_config
  | some (.error _) => default_plugin_config
  | some (.ok user) => dictUpdate default_plugin_config user

/-! ## IEEE-754 binary64 model of the aggregation arithmetic

`calculate_weighted_score` above models the float arithmetic of
`_calculate_weighted_score` as exact rationals.  That idealization is
exact for the all-zero inputs of C2, but the source actually
accumulates `total_score += score * weight` as IEEE-754 doubles in
registry order, and double addition is not associative.  The
definitions below model binary64 arithmetic faithfully for finite
results in the normal range — every value this program's scores and
weights can produce; overflow and subnormals (magnitudes beyond
`2^1024` or below `2^-1022`) are out of that range and not modelled. -/

/-- Round `x` to an integer multiple of `2 ^ e`, round-to-nearest
with ties to even. -/
def roundAt (e : ℤ) (x : ℚ) : ℚ :=
  let y := x * 2 ^ (-e)
  let q := ⌊y⌋
  let r := y - q
  let m : ℤ :=
    if 1 / 2 < r then q + 1
    else if r < 1 / 2 then q
    else if q % 2 = 0 then q else q + 1
  (m : ℚ) * 2 ^ e

/-- Round-to-nearest-even at 53 significant bits: the value an
IEEE-754 binary64 operation returns for a finite result in the normal
range.  For `x ≠ 0` the leading bit sits at `Int.log 2 |x|`, so the
result is a multiple of `2 ^ (Int.log 2 |x| - 52)`. -/
def roundF (x : ℚ) : ℚ :=
  if x = 0 then 0
  else if 0 < x then roundAt (Int.log 2 x - 52) x
  else -roundAt (Int.log 2 (-x) - 52) (-x)

/-- Binary64 addition: exact sum, then one rounding. -/
def fadd (x y : ℚ) : ℚ := roundF (x + y)

/-- Binary64 multiplication: exact product, then one rounding. -/
def fmul (x y : ℚ) : ℚ := roundF (x * y)

/-- Binary64 division: exact quotient, then one rounding. -/
def fdiv (x y : ℚ) : ℚ := roundF (x / y)

/-- `QualityAssessmentManager._calculate_weighted_score` as the
machine executes it: the two running totals accumulate over the
(score, weight) pairs in registry iteration order with binary64
`+` and `*` (the `self.weights.get` lookup itself is exact and is
modelled by pairing each score with its weight), then the same
re-normalisation-and-clamp as the exact model, with a binary64
division. -/
def calculate_weighted_score_f64 (pairs : List (ℚ × ℚ)) : ℚ :=
  let totalScore := pairs.foldl (fun acc p => fadd acc (fmul p.1 p.2)) 0
  let totalWeight := pairs.foldl (fun acc p => fadd acc p.2) 0
  let ts := if 0 < totalWeight ∧ totalWeight ≠ 1 then fdiv totalScore totalWeight
            else totalScore
  min 10 ts

/-! ## Concrete inputs used by the claim theorems and witnesses -/

/-- The exact value of the binary64 literal `0.4`. -/
def q04 : ℚ := 3602879701896397 / 2 ^ 53

/-- The exact value of the binary64 literal `0.8`. -/
def q08 : ℚ := 3602879701896397 / 2 ^ 52

/-- The exact value of the binary64 literal `1.2`. -/
def q12 : ℚ := 5404319552844595 / 2 ^ 52

/-- Dimension scores 0.4 / 0.8 / 1.2 with weight 0.25 each, in one
registration order.  The three products are exactly the doubles 0.1,
0.2 and 0.3. -/
def permPairsA : List (ℚ × ℚ) := [(q04, 1 / 4), (q08, 1 / 4), (q12, 1 / 4)]

/-- The same pairs in the reversed registration order. -/
def permPairsB : List (ℚ × ℚ) := [(q12, 1 / 4), (q08, 1 / 4), (q04, 1 / 4)]

/-- An empty details record, used as a concrete plugin outcome in
witnesses. -/
def zeroDetails : AssessmentDetails :=
  { score := 0, passed_checks := [], failed_checks := [], recommendations := [] }

/-- All completeness signals satisfied. -/
def allCompletenessSignals : CompletenessSignals :=
  { hasTemplateFile := true, hasReadme := true, hasScriptFile := true,
    hasTemplatesDir := true, hasDocsDir := true, hasToolsDir := true,
    hasTestFile := true, hasConfigFile := true }

/-- All signals of every built-in dimension satisfied (one Python
file with a 10% comment ratio and every object-oriented feature). -/
def allValidatorSignals : ValidatorSignals :=
  { completeness := allCompletenessSignals
    usability := { usageGuidance := true, exampleCode := true, errorHandlingDocs := true,
                   configurationDocs := true, faqDocs := true }
    pyFiles := [{ totalLines := 100, commentLines := 10, classCount := 1,
                  inheritanceCount := 1, methodCount := 1, decoratorCount := 1 }]
    versionFound := true
    loggingFound := true
    documentation := { readmeExists := true, docStructure := true, codeDocs := true,
                       docFreshness := true }
    extensibility := { configSupport := true, templateSystem := true,
                       pluginKeywords := true } }

/-- A Markdown document whose only heading-like line sits inside a
fenced code block, followed by a link targeting that heading. -/
def fencedDemo : String := "```\n# Secret Heading\n```\n[x](#secret-heading)"

/-- A Python-file statistic with a 5% comment ratio (partial credit)
and every object-oriented feature present. -/
def partialCommentStats : PyFileStats :=
  { totalLines := 100, commentLines := 5, classCount := 1, inheritanceCount := 1,
    methodCount := 1, decoratorCount := 1 }

/-! ## Helper lemmas -/

theorem runPlugins_fst (plugins : List (String × PluginRun)) :
    (runPlugins plugins).1 = plugins.map (fun p => (p.1, p.2.finalScore)) := by
  induction plugins with
  | nil => rfl
  | cons p rest ih => simp [runPlugins, ih]

theorem runPlugins_snd (plugins : List (String × PluginRun)) :
    (runPlugins plugins).2 = plugins.map (fun p => (p.1, p.2.finalDetails)) := by
  induction plugins with
  | nil => rfl
  | cons p rest ih => simp [runPlugins, ih]

theorem lookup_append_some {α : Type} {l r : List (String × α)} {k : String} {v : α}
    (h : l.lookup k = some v) : (l ++ r).lookup k = some v := by
  induction l with
  | nil => simp [List.lookup] at h
  | cons p l ih =>
    rw [List.cons_append]
    rcases p with ⟨k', v'⟩
    by_cases hk : (k == k') = true <;> simp only [List.lookup, hk] at h ⊢
    · exact h
    · exact ih h

theorem lookup_append_none {α : Type} {l r : List (String × α)} {k : String}
    (h : l.lookup k = none) : (l ++ r).lookup k = r.lookup k := by
  induction l with
  | nil => simp
  | cons p l ih =>
    rw [List.cons_append]
    rcases p with ⟨k', v'⟩
    by_cases hk : (k == k') = true <;> simp only [List.lookup, hk] at h ⊢
    · exact absurd h (by simp)
    · exact ih h

theorem lookup_map_update {α : Type} {new : List (String × α)} {k : String} {v : α}
    (h : new.lookup k = some v) :
    ∀ cur : List (String × α), cur.any (fun q => q.1 == k) = true →
      (cur.map (fun p => (p.1, (new.lookup p.1).getD p.2))).lookup k = some v := by
  intro cur
  induction cur with
  | nil => simp
  | cons p cur ih =>
    intro hany
    rcases p with ⟨k', v'⟩
    by_cases hk : (k == k') = true
    · have : k' = k := (eq_of_beq hk).symm
      subst this
      simp only [List.map_cons, List.lookup, hk]
      rw [h]
      rfl
    · simp only [List.map_cons, List.lookup, hk]
      apply ih
      simp only [List.any_cons, Bool.or_eq_true] at hany
      rcases hany with hbad | hrest
      · exact absurd (by simpa [eq_comm] using eq_of_beq hbad) (by simpa using hk)
      · exact hrest

theorem lookup_map_none {α : Type} {k : String} :
    ∀ (cur : List (String × α)) (f : String × α → α),
      cur.any (fun q => q.1 == k) = false →
      (cur.map (fun p => (p.1, f p))).lookup k = none := by
  intro cur
  induction cur with
  | nil => simp
  | cons p cur ih =>
    intro f hany
    rcases p with ⟨k', v'⟩
    simp only [List.any_cons, Bool.or_eq_false_iff] at hany
    have hk : (k == k') = false :=
      beq_eq_false_iff_ne.mpr fun hkk => (beq_eq_false_iff_ne.mp hany.1) hkk.symm
    simp only [List.map_cons, List.lookup, hk]
    exact ih f hany.2

theorem lookup_filter_pred {α : Type} {k : String} (pred : String × α → Bool)
    (new : List (String × α)) (hpred : ∀ p : String × α, p.1 = k → pred p = true) :
    (new.filter pred).lookup k = new.lookup k := by
  induction new with
  | nil => simp
  | cons p new ih =>
    rcases p with ⟨k', v'⟩
    by_cases hk : (k == k') = true
    · have : k' = k := (eq_of_beq hk).symm
      rw [List.filter_cons, hpred (k', v') this]
      simp only [List.lookup, hk]
    · rw [List.filter_cons]
      by_cases hp : pred (k', v') = true
      · rw [hp]
        simp only [List.lookup, hk]
        exact ih
      · rw [Bool.eq_false_iff.mpr hp]
        simp only [cond_false, List.lookup, hk]
        exact ih

theorem lookup_dictUpdate {α : Type} (cur new : List (String × α)) (k : String) (v : α)
    (h : new.lookup k = some v) : (dictUpdate cur new).lookup k = some v := by
  unfold dictUpdate
  by_cases hc : cur.any (fun q => q.1 == k) = true
  · exact lookup_append_some (lookup_map_update h cur hc)
  · have hfalse : cur.any (fun q => q.1 == k) = false := Bool.eq_false_iff.mpr hc
    rw [lookup_append_none (lookup_map_none cur _ hfalse)]
    rw [lookup_filter_pred _ new (fun p hp => by
      rw [show (fun q : String × α => q.1 == p.1) = (fun q : String × α => q.1 == k) by
        funext q; rw [hp]]
      simp [hfalse])]
    exact h

theorem critical_issues_ne_nil_iff (r : ValidationResults) :
    get_critical_issues r ≠ [] ↔
      ∃ issue ∈ get_all_issues r, issue.type ∈ critical_types := by
  unfold get_critical_issues
  constructor
  · intro h
    obtain ⟨x, hx⟩ := List.exists_mem_of_ne_nil _ h
    have hm := List.mem_filter.mp hx
    exact ⟨x, hm.1, by simpa using hm.2⟩
  · rintro ⟨x, hx, ht⟩
    exact List.ne_nil_of_mem (List.mem_filter.mpr ⟨hx, by simpa using ht⟩)

theorem if_nonneg {c : Prop} [Decidable c] {q : ℚ} (hq : 0 ≤ q) :
    0 ≤ if c then q else 0 := by
  split_ifs
  exacts [hq, le_refl 0]

/-- Evaluate one binary64 rounding in the `(0, 2^53)` magnitude
range: if `x * 2 ^ k` splits as an integer `q` in `[2^52, 2^53)` plus
a remainder `r ∈ [0, 1)`, then `roundF x` is the round-to-nearest,
ties-to-even choice between `q` and `q + 1`, scaled back by `2^k`. -/
theorem roundF_eval_neg (x r : ℚ) (k : ℕ) (q : ℤ) (hx : 0 < x)
    (hlo : (2 : ℚ) ^ 52 ≤ x * 2 ^ k) (hhi : x * 2 ^ k < 2 ^ 53)
    (hq : x * 2 ^ k = (q : ℚ) + r) (hr0 : 0 ≤ r) (hr1 : r < 1) :
    roundF x = (if 1 / 2 < r then ((q : ℚ) + 1)
      else if r < 1 / 2 then (q : ℚ)
      else if q % 2 = 0 then (q : ℚ) else (q : ℚ) + 1) / 2 ^ k := by
  have h2k : (0 : ℚ) < 2 ^ k := by positivity
  have hpow52 : ((2 : ℚ) ^ ((52 : ℤ) - (k : ℤ))) * 2 ^ k = 2 ^ (52 : ℕ) := by
    rw [← zpow_natCast (2 : ℚ) k, ← zpow_add₀ (by norm_num : (2 : ℚ) ≠ 0)]
    norm_num
  have hpow53 : ((2 : ℚ) ^ ((53 : ℤ) - (k : ℤ))) * 2 ^ k = 2 ^ (53 : ℕ) := by
    rw [← zpow_natCast (2 : ℚ) k, ← zpow_add₀ (by norm_num : (2 : ℚ) ≠ 0)]
    norm_num
  have hzlo : (2 : ℚ) ^ ((52 : ℤ) - (k : ℤ)) ≤ x := by
    rw [show (2 : ℚ) ^ ((52 : ℤ) - (k : ℤ)) = 2 ^ (52 : ℕ) / 2 ^ k by
      rw [← hpow52]; field_simp]
    rw [div_le_iff₀ h2k]
    exact hlo
  have hzhi : x < (2 : ℚ) ^ ((53 : ℤ) - (k : ℤ)) := by
    rw [show (2 : ℚ) ^ ((53 : ℤ) - (k : ℤ)) = 2 ^ (53 : ℕ) / 2 ^ k by
      rw [← hpow53]; field_simp]
    rw [lt_div_iff₀ h2k]
    exact hhi
  have hlog : Int.log 2 x = 52 - (k : ℤ) := by
    have hle : (52 : ℤ) - k ≤ Int.log 2 x := by
      have h := Int.log_mono_right (b := 2)
        (zpow_pos (by norm_num : (0 : ℚ) < 2) _) hzlo
      have hlogpow : Int.log 2 ((2 : ℚ) ^ ((52 : ℤ) - (k : ℤ))) = 52 - (k : ℤ) := by
        rw [show ((2 : ℚ)) = (((2 : ℕ) : ℚ)) from by norm_num]
        exact Int.log_zpow (by norm_num) _
      rwa [hlogpow] at h
    have hge : Int.log 2 x ≤ 52 - (k : ℤ) := by
      by_contra hcon
      push_neg at hcon
      have h53 : (53 : ℤ) - k ≤ Int.log 2 x := by omega
      have hx2 : (2 : ℚ) ^ ((53 : ℤ) - (k : ℤ)) ≤ 2 ^ (Int.log 2 x) :=
        zpow_le_zpow_right₀ (by norm_num) h53
      have hself := Int.zpow_log_le_self (b := 2) (by norm_num) hx
      push_cast at hself
      linarith
    omega
  have hne : x ≠ 0 := ne_of_gt hx
  rw [roundF, if_neg hne, if_pos hx, hlog]
  rw [show (52 : ℤ) - (k : ℤ) - 52 = -(k : ℤ) by ring]
  simp only [roundAt, neg_neg]
  rw [zpow_natCast, hq]
  have hfl : ⌊(q : ℚ) + r⌋ = q := by
    rw [add_comm, Int.floor_add_int, Int.floor_eq_zero_iff.mpr ⟨hr0, hr1⟩, zero_add]
  rw [hfl]
  rw [show (q : ℚ) + r - q = r by ring]
  rw [zpow_neg, zpow_natCast]
  split_ifs <;> push_cast <;> field_simp

theorem comment_ratio_bounds (files : List PyFileStats) :
    0 ≤ plugin_check_comment_ratio files ∧ plugin_check_comment_ratio files ≤ 5 / 2 := by
  by_cases h1 : files = []
  · simp [plugin_check_comment_ratio, h1]
    norm_num
  · by_cases h2 : (sumTotalLines files : ℚ) = 0
    · simp only [plugin_check_comment_ratio, if_neg h1, if_pos h2]
      norm_num
    · by_cases h3 : (1 : ℚ) / 10 ≤ (sumCommentLines files : ℚ) / (sumTotalLines files : ℚ)
      · simp only [plugin_check_comment_ratio, if_neg h1, if_neg h2, if_pos h3]
        norm_num
      · simp only [plugin_check_comment_ratio, if_neg h1, if_neg h2, if_neg h3]
        have ht : (0 : ℚ) < (sumTotalLines files : ℚ) := by
          rcases Nat.eq_zero_or_pos (sumTotalLines files) with h | h
          · exact absurd (by exact_mod_cast h) h2
          · exact_mod_cast h
        have hr0 : 0 ≤ (sumCommentLines files : ℚ) / (sumTotalLines files : ℚ) :=
          div_nonneg (Nat.cast_nonneg _) (le_of_lt ht)
        have hrlt : (sumCommentLines files : ℚ) / (sumTotalLines files : ℚ) < 1 / 10 :=
          lt_of_not_le h3
        constructor
        · exact mul_nonneg (div_nonneg hr0 (by norm_num)) (by norm_num)
        · have hle : (sumCommentLines files : ℚ) / (sumTotalLines files : ℚ) /
              (1 / 10) ≤ 1 := by
            rw [div_le_one (by norm_num)]
            linarith
          calc (sumCommentLines files : ℚ) / (sumTotalLines files : ℚ) / (1 / 10) * (5 / 2)
              ≤ 1 * (5 / 2) := mul_le_mul_of_nonneg_right hle (by norm_num)
            _ = 5 / 2 := by ring

theorem oo_design_bounds (files : List PyFileStats) :
    0 ≤ plugin_check_oo_design files ∧ plugin_check_oo_design files ≤ 5 / 2 := by
  by_cases h : files = []
  · simp [plugin_check_oo_design, h]
    norm_num
  · simp only [plugin_check_oo_design, if_neg h]
    refine ⟨le_min (by norm_num) ?_, min_le_left _ _⟩
    exact add_nonneg (add_nonneg (add_nonneg (if_nonneg (by norm_num))
      (if_nonneg (by norm_num))) (if_nonneg (by norm_num))) (if_nonneg (by norm_num))

theorem maintainability_assess_bounds (v : Bool) (files : List PyFileStats)
    (vf lf : Bool) :
    0 ≤ maintainability_plugin_assess v files vf lf ∧
      maintainability_plugin_assess v files vf lf ≤ 10 := by
  cases v
  · simp [maintainability_plugin_assess]
  · simp only [maintainability_plugin_assess, Bool.not_true, Bool.false_eq_true,
      if_false]
    refine ⟨le_min ?_ (by norm_num), min_le_right _ _⟩
    have h1 := (comment_ratio_bounds files).1
    have h2 := (oo_design_bounds files).1
    have h3 : (0:ℚ) ≤ if vf = true then 5 / 2 else 0 := if_nonneg (by norm_num)
    have h4 : (0:ℚ) ≤ if lf = true then 5 / 2 else 0 := if_nonneg (by norm_num)
    linarith

theorem maintainability_details_score_bounds (v : Bool) (files : List PyFileStats)
    (vf lf : Bool) :
    0 ≤ (maintainability_plugin_details v files vf lf).score ∧
      (maintainability_plugin_details v files vf lf).score ≤ 10 := by
  cases v
  · simp [maintainability_plugin_details, invalidDirDetails]
  · have h := maintainability_assess_bounds true files vf lf
    simpa only [maintainability_plugin_details, Bool.not_true, Bool.false_eq_true,
      if_false] using h

theorem completeness_details_score_bounds (v : Bool) (s : CompletenessSignals) :
    0 ≤ (completeness_plugin_details v s).score ∧
      (completeness_plugin_details v s).score ≤ 10 := by
  have hassess : 0 ≤ completeness_plugin_assess v s ∧
      completeness_plugin_assess v s ≤ 10 := by
    cases v
    · simp [completeness_plugin_assess]
    · simp only [completeness_plugin_assess, Bool.not_true, Bool.false_eq_true, if_false]
      refine ⟨le_min ?_ (by norm_num), min_le_right _ _⟩
      have hd : (0 : ℚ) ≤ (s.existingDirs : ℚ) / 3 * (167 / 100) := by positivity
      exact add_nonneg (add_nonneg (add_nonneg (add_nonneg (add_nonneg
        (if_nonneg (by norm_num)) (if_nonneg (by norm_num))) (if_nonneg (by norm_num)))
        hd) (if_nonneg (by norm_num))) (if_nonneg (by norm_num))
  cases v
  · simp [completeness_plugin_details, invalidDirDetails]
  · simpa only [completeness_plugin_details, Bool.not_true, Bool.false_eq_true,
      if_false] using hassess

theorem usability_details_score_bounds (v : Bool) (s : UsabilitySignals) :
    0 ≤ (usability_plugin_details v s).score ∧
      (usability_plugin_details v s).score ≤ 10 := by
  have hassess : 0 ≤ usability_plugin_assess v s ∧ usability_plugin_assess v s ≤ 10 := by
    cases v
    · simp [usability_plugin_assess]
    · simp only [usability_plugin_assess, Bool.not_true, Bool.false_eq_true, if_false]
      refine ⟨le_min ?_ (by norm_num), min_le_right _ _⟩
      exact add_nonneg (add_nonneg (add_nonneg (add_nonneg (if_nonneg (by norm_num))
        (if_nonneg (by norm_num))) (if_nonneg (by norm_num))) (if_nonneg (by norm_num)))
        (if_nonneg (by norm_num))
  cases v
  · simp [usability_plugin_details, invalidDirDetails]
  · simpa only [usability_plugin_details, Bool.not_true, Bool.false_eq_true,
      if_false] using hassess

theorem documentation_details_score_bounds (v : Bool) (s : DocumentationSignals) :
    0 ≤ (documentation_plugin_details v s).score ∧
      (documentation_plugin_details v s).score ≤ 10 := by
  have hassess : 0 ≤ documentation_plugin_assess v s ∧
      documentation_plugin_assess v s ≤ 10 := by
    cases v
    · simp [documentation_plugin_assess]
    · simp only [documentation_plugin_assess, Bool.not_true, Bool.false_eq_true, if_false]
      refine ⟨le_min ?_ (by norm_num), min_le_right _ _⟩
      exact add_nonneg (add_nonneg (add_nonneg (if_nonneg (by norm_num))
        (if_nonneg (by norm_num))) (if_nonneg (by norm_num))) (if_nonneg (by norm_num))
  cases v
  · simp [documentation_plugin_details, invalidDirDetails]
  · simpa only [documentation_plugin_details, Bool.not_true, Bool.false_eq_true,
      if_false] using hassess

theorem extensibility_details_score_bounds (v : Bool) (s : ExtensibilitySignals) :
    0 ≤ (extensibility_plugin_details v s).score ∧
      (extensibility_plugin_details v s).score ≤ 10 := by
  have hassess : 0 ≤ extensibility_plugin_assess v s ∧
      extensibility_plugin_assess v s ≤ 10 := by
    cases v
    · simp [extensibility_plugin_assess]
    · simp only [extensibility_plugin_assess, Bool.not_true, Bool.false_eq_true, if_false]
      refine ⟨le_min ?_ (by norm_num), min_le_right _ _⟩
      exact add_nonneg (add_nonneg (if_nonneg (by norm_num)) (if_nonneg (by norm_num)))
        (if_nonneg (by norm_num))
  cases v
  · simp [extensibility_plugin_details, invalidDirDetails]
  · simpa only [extensibility_plugin_details, Bool.not_true, Bool.false_eq_true,
      if_false] using hassess

theorem mem_pydedup {a : String} : ∀ l : List String, a ∈ pydedup l ↔ a ∈ l := by
  intro l
  induction l with
  | nil => simp [pydedup]
  | cons x xs ih =>
    simp only [pydedup]
    split_ifs with h
    · rw [ih]
      constructor
      · exact fun ha => List.mem_cons_of_mem _ ha
      · intro ha
        rcases List.mem_cons.mp ha with rfl | ha
        · exact ih.mp (by simpa using h)
        · exact ha
    · simp only [List.mem_cons, ih]

theorem pydedup_nodup : ∀ l : List String, (pydedup l).Nodup := by
  intro l
  induction l with
  | nil => simp [pydedup]
  | cons x xs ih =>
    simp only [pydedup]
    split_ifs with h
    · exact ih
    · refine List.nodup_cons.mpr ⟨?_, ih⟩
      intro hmem
      exact h (by simpa using hmem)

theorem mem_dropWhile_of_neg {c : Char} {p : Char → Bool} (hc : p c = false) :
    ∀ l : List Char, c ∈ l → c ∈ l.dropWhile p := by
  intro l
  induction l with
  | nil => simp
  | cons x xs ih =>
    intro hmem
    by_cases hx : p x = true
    · rw [List.dropWhile_cons_of_pos hx]
      rcases List.mem_cons.mp hmem with rfl | h
      · rw [hc] at hx
        exact absurd hx (by simp)
      · exact ih h
    · rw [List.dropWhile_cons_of_neg hx]
      exact hmem

theorem mem_rdropWhile_of_neg {c : Char} {p : Char → Bool} (hc : p c = false)
    (l : List Char) (hmem : c ∈ l) : c ∈ rdropWhile p l := by
  unfold rdropWhile
  rw [List.mem_reverse]
  exact mem_dropWhile_of_neg hc _ (by rwa [List.mem_reverse])

theorem mem_pyStrip {c : Char} (hc : pyIsSpace c = false) (l : List Char)
    (hmem : c ∈ l) : c ∈ pyStrip l :=
  mem_rdropWhile_of_neg hc _ (mem_dropWhile_of_neg hc _ hmem)

theorem word_not_space {c : Char} (h : pyIsWord c = true) : pyIsSpace c = false := by
  rw [Bool.eq_false_iff]
  intro habs
  simp only [pyIsWord, pyIsSpace, isCJK, Bool.or_eq_true, Bool.and_eq_true,
    decide_eq_true_eq] at h habs
  omega

theorem word_not_hash_space {c : Char} (h : pyIsWord c = true) :
    ((['#', ' '] : List Char).contains c) = false := by
  rw [Bool.eq_false_iff]
  intro habs
  have : c = '#' ∨ c = ' ' := by simpa using habs
  rcases this with rfl | rfl <;> exact absurd h (by decide)

theorem mem_subWsHyphenAux {c : Char} (hc : pyIsSpace c = false) :
    ∀ (l : List Char) (flag : Bool), c ∈ l → c ∈ subWsHyphenAux flag l := by
  intro l
  induction l with
  | nil => simp
  | cons x xs ih =>
    intro flag hmem
    simp only [subWsHyphenAux]
    by_cases hx : pyIsSpace x = true
    · rw [if_pos hx]
      have hcx : c ∈ xs := by
        rcases List.mem_cons.mp hmem with rfl | h
        · rw [hc] at hx
          exact absurd hx (by simp)
        · exact h
      split_ifs
      · exact ih true hcx
      · exact List.mem_cons_of_mem _ (ih true hcx)
    · rw [if_neg hx]
      rcases List.mem_cons.mp hmem with rfl | h
      · exact List.mem_cons_self _ _
      · exact List.mem_cons_of_mem _ (ih false h)

theorem hierScan_line_not_fenced (file : String) :
    ∀ (ls : List (List Char)) (n prev : Nat) (ic : Bool) (issue : Issue),
      issue ∈ hierScan file (numberFrom n ls) prev ic →
      ∃ k, k < ls.length ∧ issue.line = some (n + k) ∧
        ((ls.take k).countP isFenceLine + (if ic then 1 else 0)) % 2 = 0 := by
  intro ls
  induction ls with
  | nil =>
    intro n prev ic issue h
    simp [numberFrom, hierScan] at h
  | cons l ls ih =>
    intro n prev ic issue h
    simp only [numberFrom, hierScan] at h
    by_cases hf : isFenceLine l = true
    · rw [if_pos hf] at h
      obtain ⟨k, hk, hline, hpar⟩ := ih (n + 1) prev (!ic) issue h
      refine ⟨k + 1, by simpa using Nat.succ_lt_succ hk,
        by rw [hline]; congr 1; omega, ?_⟩
      rw [List.take_succ_cons, List.countP_cons, hf]
      cases ic <;> (simp at hpar ⊢) <;> omega
    · rw [if_neg hf] at h
      have hcount : ∀ k : Nat, ((l :: ls).take (k + 1)).countP isFenceLine =
          (ls.take k).countP isFenceLine := by
        intro k
        rw [List.take_succ_cons, List.countP_cons, Bool.eq_false_iff.mpr hf]
        simp
      by_cases hic : ic = true
      · rw [if_pos hic] at h
        obtain ⟨k, hk, hline, hpar⟩ := ih (n + 1) prev ic issue h
        exact ⟨k + 1, by simpa using Nat.succ_lt_succ hk,
          by rw [hline]; congr 1; omega, by rw [hcount k]; exact hpar⟩
      · rw [if_neg hic] at h
        have hic0 : ic = false := Bool.eq_false_iff.mpr hic
        by_cases hh : isHeadingLine l = true
        · rw [if_pos hh] at h
          rcases List.mem_append.mp h with hl | hr
          · split_ifs at hl with hj
            · have heq := List.mem_singleton.mp hl
              subst heq
              refine ⟨0, by simp, by simp [headingIssue], ?_⟩
              simp [hic0]
            · simp at hl
          · obtain ⟨k, hk, hline, hpar⟩ := ih (n + 1) _ ic issue hr
            exact ⟨k + 1, by simpa using Nat.succ_lt_succ hk,
              by rw [hline]; congr 1; omega, by rw [hcount k]; exact hpar⟩
        · rw [if_neg hh] at h
          obtain ⟨k, hk, hline, hpar⟩ := ih (n + 1) prev ic issue h
          exact ⟨k + 1, by simpa using Nat.succ_lt_succ hk,
            by rw [hline]; congr 1; omega, by rw [hcount k]; exact hpar⟩

theorem simple_mem_rawAnchors (title : String)
    (h : subWsHyphen (pyStrip ((titleChars title).filter simpleKeep)) ≠ []) :
    subWsHyphen (pyStrip ((titleChars title).filter simpleKeep)) ∈ rawAnchors title := by
  simp only [rawAnchors]
  rw [if_pos h]
  exact List.mem_append_right _ (List.mem_cons_self _ _)

theorem completeness_pairing (v : Bool) (s : CompletenessSignals) :
    (completeness_plugin_details v s).recommendations ≠ [] →
      (completeness_plugin_details v s).failed_checks ≠ [] := by
  cases v
  · intro _
    simp [completeness_plugin_details, invalidDirDetails]
  · rcases s with ⟨b1, b2, b3, d1, d2, d3, b5, b6⟩
    cases b1 <;> cases b2 <;> cases b3 <;> cases d1 <;> cases d2 <;> cases d3 <;>
      cases b5 <;> cases b6 <;> simp [completeness_plugin_details]

theorem usability_pairing (v : Bool) (s : UsabilitySignals) :
    (usability_plugin_details v s).recommendations ≠ [] →
      (usability_plugin_details v s).failed_checks ≠ [] := by
  cases v
  · intro _
    simp [usability_plugin_details, invalidDirDetails]
  · rcases s with ⟨b1, b2, b3, b4, b5⟩
    cases b1 <;> cases b2 <;> cases b3 <;> cases b4 <;> cases b5 <;>
      simp [usability_plugin_details]

theorem documentation_pairing (v : Bool) (s : DocumentationSignals) :
    (documentation_plugin_details v s).recommendations ≠ [] →
      (documentation_plugin_details v s).failed_checks ≠ [] := by
  cases v
  · intro _
    simp [documentation_plugin_details, invalidDirDetails]
  · rcases s with ⟨b1, b2, b3, b4⟩
    cases b1 <;> cases b2 <;> cases b3 <;> cases b4 <;>
      simp [documentation_plugin_details]

theorem extensibility_pairing (v : Bool) (s : ExtensibilitySignals) :
    (extensibility_plugin_details v s).recommendations ≠ [] →
      (extensibility_plugin_details v s).failed_checks ≠ [] := by
  cases v
  · intro _
    simp [extensibility_plugin_details, invalidDirDetails]
  · rcases s with ⟨b1, b2, b3⟩
    cases b1 <;> cases b2 <;> cases b3 <;> simp [extensibility_plugin_details]

end WorkflowTools

open WorkflowTools

/-! ## Claim theorems -/

/-- **C1.** The report of `WorkflowValidator.validate_workflow` has
`summary.overall_status = "FAIL"` iff at least one issue recorded in
the syntax, logic or dependency category has a type in the fixed
critical set (`missing_main_workflow`, `python_syntax`,
`missing_section`, `broken_link`); otherwise the status is `"PASS"`. -/
theorem overall_status_fail_iff_critical_issue (r : ValidationResults) :
    ((generate_validation_report r).summary.overall_status = "FAIL" ↔
      ∃ issue ∈ get_all_issues r, issue.type ∈ critical_types) ∧
    ((generate_validation_report r).summary.overall_status ≠ "FAIL" →
      (generate_validation_report r).summary.overall_status = "PASS") := by
  have hred : (generate_validation_report r).summary.overall_status =
      if (get_critical_issues r).length = 0 then "PASS" else "FAIL" := rfl
  rw [hred]
  constructor
  · constructor
    · intro h
      have hne : (get_critical_issues r).length ≠ 0 := by
        intro h0
        rw [if_pos h0] at h
        exact absurd h (by decide)
      exact (critical_issues_ne_nil_iff r).mp fun hnil => hne (by rw [hnil]; rfl)
    · intro h
      have hne := (critical_issues_ne_nil_iff r).mpr h
      rw [if_neg (fun h0 => hne (List.length_eq_zero.mp h0))]
  · intro h
    by_cases h0 : (get_critical_issues r).length = 0
    · rw [if_pos h0]
    · rw [if_neg h0] at h
      exact absurd rfl h

/-- **C1 witness.** A run with a `broken_link` syntax issue fails;
a run with only a non-critical issue passes. -/
theorem overall_status_fail_iff_critical_issue_witness :
    (generate_validation_report
        { syntaxIssues := [{ file := "a.md", type := "broken_link", message := "m" }],
          syntaxPassed := 1, syntaxFailed := 1, logicIssues := [], logicPassed := 0,
          logicFailed := 0, depIssues := [], depPassed := 0, depFailed := 0,
          qualityScore := 5 }).summary.overall_status = "FAIL" :=
  ((overall_status_fail_iff_critical_issue _).1).mpr
    ⟨{ file := "a.md", type := "broken_link", message := "m" }, by decide, by decide⟩

/-- **C2.** On an existing directory where every registered plugin's
`assess` returns `0.0` (and its details call succeeds),
`assess_quality` returns `overall_score = 0` and grade `"需要改进"`
("needs improvement"); and the manager's grade mapping is the closed
ordered threshold scheme ≥9 `"优秀"` (excellent), ≥8 `"良好"` (good),
≥7 `"中等"` (moderate), ≥6 `"一般"` (fair), below `"需要改进"`. -/
theorem assess_quality_zero_scores_needs_improvement :
    (∀ (weights : List (String × ℚ)) (plugins : List (String × PluginRun)),
        (∀ p ∈ plugins, ∃ d, p.2 = PluginRun.ok 0 d) →
        (assess_quality weights plugins).overall_score = 0 ∧
          (assess_quality weights plugins).grade = "需要改进") ∧
    (∀ s : ℚ,
        (9 ≤ s → manager_quality_grade s = "优秀") ∧
        (8 ≤ s → s < 9 → manager_quality_grade s = "良好") ∧
        (7 ≤ s → s < 8 → manager_quality_grade s = "中等") ∧
        (6 ≤ s → s < 7 → manager_quality_grade s = "一般") ∧
        (s < 6 → manager_quality_grade s = "需要改进")) := by
  constructor
  · intro weights plugins h
    have hz : ∀ q ∈ (runPlugins plugins).1, q.2 = 0 := by
      rw [runPlugins_fst]
      intro q hq
      obtain ⟨p, hp, rfl⟩ := List.mem_map.mp hq
      obtain ⟨d, hd⟩ := h p hp
      simp [hd, PluginRun.finalScore]
    have hts : (((runPlugins plugins).1).map
        (fun p => p.2 * weightsGet weights p.1)).sum = 0 := by
      apply List.sum_eq_zero
      intro x hx
      obtain ⟨q, hq, rfl⟩ := List.mem_map.mp hx
      rw [hz q hq, zero_mul]
    have hscore : (assess_quality weights plugins).overall_score = 0 := by
      show calculate_weighted_score weights (runPlugins plugins).1 = 0
      simp only [calculate_weighted_score]
      rw [hts]
      split_ifs with hcond
      · rw [zero_div]
        exact min_eq_right (by norm_num)
      · exact min_eq_right (by norm_num)
    refine ⟨hscore, ?_⟩
    show manager_quality_grade (calculate_weighted_score weights (runPlugins plugins).1) = _
    rw [show calculate_weighted_score weights (runPlugins plugins).1 = 0 from hscore]
    norm_num [manager_quality_grade]
  · intro s
    refine ⟨?_, ?_, ?_, ?_, ?_⟩
    · intro h1
      simp only [manager_quality_grade]
      rw [if_pos h1]
    · intro h1 h2
      simp only [manager_quality_grade]
      rw [if_neg (by linarith), if_pos h1]
    · intro h1 h2
      simp only [manager_quality_grade]
      rw [if_neg (by linarith), if_neg (by linarith), if_pos h1]
    · intro h1 h2
      simp only [manager_quality_grade]
      rw [if_neg (by linarith), if_neg (by linarith), if_neg (by linarith), if_pos h1]
    · intro h1
      simp only [manager_quality_grade]
      rw [if_neg (by linarith), if_neg (by linarith), if_neg (by linarith),
        if_neg (by linarith)]

/-- **C2 witness.** The standard five-plugin registry with every
score 0 yields overall score 0 and the needs-improvement grade. -/
theorem assess_quality_zero_scores_needs_improvement_witness :
    (assess_quality default_weights
        [("completeness", PluginRun.ok 0 zeroDetails),
         ("usability", PluginRun.ok 0 zeroDetails),
         ("maintainability", PluginRun.ok 0 zeroDetails),
         ("documentation", PluginRun.ok 0 zeroDetails),
         ("extensibility", PluginRun.ok 0 zeroDetails)]).overall_score = 0 ∧
    (assess_quality default_weights
        [("completeness", PluginRun.ok 0 zeroDetails),
         ("usability", PluginRun.ok 0 zeroDetails),
         ("maintainability", PluginRun.ok 0 zeroDetails),
         ("documentation", PluginRun.ok 0 zeroDetails),
         ("extensibility", PluginRun.ok 0 zeroDetails)]).grade = "需要改进" :=
  assess_quality_zero_scores_needs_improvement.1 default_weights _ (by
    intro p hp
    fin_cases hp <;> exact ⟨zeroDetails, rfl⟩)

/-- **C8 counterexample.** The overall score is *not* invariant under
permutation of the registration order as the machine computes it:
with dimension scores 0.4 / 0.8 / 1.2 (exact binary64 literals) and
weight 0.25 each, the three products are exactly the doubles 0.1, 0.2
and 0.3, and accumulating them as IEEE-754 doubles gives
`(0.1 + 0.2) + 0.3 = 0.6000000000000001` in one order but
`(0.3 + 0.2) + 0.1 = 0.6` in the reverse; after re-normalisation by
the applied weight 0.75 the overall scores are
`0.8000000000000002` vs `0.7999999999999999` — different. -/
theorem overall_score_float_order_dependent :
    permPairsA.Perm permPairsB ∧
    calculate_weighted_score_f64 permPairsA = 7205759403792795 / 2 ^ 53 ∧
    calculate_weighted_score_f64 permPairsB = 7205759403792793 / 2 ^ 53 ∧
    calculate_weighted_score_f64 permPairsA ≠ calculate_weighted_score_f64 permPairsB := by
  have hperm : permPairsA.Perm permPairsB := by
    rw [show permPairsB = permPairsA.reverse from rfl]
    exact (List.reverse_perm permPairsA).symm
  have w1 : roundF ((0 : ℚ) + 1 / 4) = 1 / 4 := by
    rw [roundF_eval_neg ((0 : ℚ) + 1 / 4) 0 54 4503599627370496 (by norm_num)
      (by norm_num) (by norm_num) (by norm_num) (by norm_num) (by norm_num)]
    norm_num
  have w2 : roundF ((1 : ℚ) / 4 + 1 / 4) = 1 / 2 := by
    rw [roundF_eval_neg ((1 : ℚ) / 4 + 1 / 4) 0 53 4503599627370496 (by norm_num)
      (by norm_num) (by norm_num) (by norm_num) (by norm_num) (by norm_num)]
    norm_num
  have w3 : roundF ((1 : ℚ) / 2 + 1 / 4) = 3 / 4 := by
    rw [roundF_eval_neg ((1 : ℚ) / 2 + 1 / 4) 0 53 6755399441055744 (by norm_num)
      (by norm_num) (by norm_num) (by norm_num) (by norm_num) (by norm_num)]
    norm_num
  have m1 : roundF (q04 * (1 / 4)) = 3602879701896397 / 2 ^ 55 := by
    rw [roundF_eval_neg (q04 * (1 / 4)) 0 56 7205759403792794 (by norm_num [q04])
      (by norm_num [q04]) (by norm_num [q04]) (by norm_num [q04]) (by norm_num)
      (by norm_num)]
    norm_num
  have m2 : roundF (q08 * (1 / 4)) = 3602879701896397 / 2 ^ 54 := by
    rw [roundF_eval_neg (q08 * (1 / 4)) 0 55 7205759403792794 (by norm_num [q08])
      (by norm_num [q08]) (by norm_num [q08]) (by norm_num [q08]) (by norm_num)
      (by norm_num)]
    norm_num
  have m3 : roundF (q12 * (1 / 4)) = 5404319552844595 / 2 ^ 54 := by
    rw [roundF_eval_neg (q12 * (1 / 4)) 0 54 5404319552844595 (by norm_num [q12])
      (by norm_num [q12]) (by norm_num [q12]) (by norm_num [q12]) (by norm_num)
      (by norm_num)]
    norm_num
  have a1 : roundF ((0 : ℚ) + 3602879701896397 / 2 ^ 55) = 3602879701896397 / 2 ^ 55 := by
    rw [roundF_eval_neg ((0 : ℚ) + 3602879701896397 / 2 ^ 55) 0 56 7205759403792794
      (by norm_num) (by norm_num) (by norm_num) (by norm_num) (by norm_num)
      (by norm_num)]
    norm_num
  have a2 : roundF ((3602879701896397 : ℚ) / 2 ^ 55 + 3602879701896397 / 2 ^ 54) =
      1351079888211149 / 2 ^ 52 := by
    rw [roundF_eval_neg ((3602879701896397 : ℚ) / 2 ^ 55 + 3602879701896397 / 2 ^ 54)
      (1 / 2) 54 5404319552844595 (by norm_num) (by norm_num) (by norm_num)
      (by norm_num) (by norm_num) (by norm_num)]
    norm_num
  have a3 : roundF ((1351079888211149 : ℚ) / 2 ^ 52 + 5404319552844595 / 2 ^ 54) =
      1351079888211149 / 2 ^ 51 := by
    rw [roundF_eval_neg ((1351079888211149 : ℚ) / 2 ^ 52 + 5404319552844595 / 2 ^ 54)
      (1 / 2) 53 5404319552844595 (by norm_num) (by norm_num) (by norm_num)
      (by norm_num) (by norm_num) (by norm_num)]
    norm_num
  have d1 : roundF ((1351079888211149 : ℚ) / 2 ^ 51 / (3 / 4)) =
      7205759403792795 / 2 ^ 53 := by
    rw [roundF_eval_neg ((1351079888211149 : ℚ) / 2 ^ 51 / (3 / 4)) (2 / 3) 53
      7205759403792794 (by norm_num) (by norm_num) (by norm_num) (by norm_num)
      (by norm_num) (by norm_num)]
    norm_num
  have b1 : roundF ((0 : ℚ) + 5404319552844595 / 2 ^ 54) = 5404319552844595 / 2 ^ 54 := by
    rw [roundF_eval_neg ((0 : ℚ) + 5404319552844595 / 2 ^ 54) 0 54 5404319552844595
      (by norm_num) (by norm_num) (by norm_num) (by norm_num) (by norm_num)
      (by norm_num)]
    norm_num
  have b2 : roundF ((5404319552844595 : ℚ) / 2 ^ 54 + 3602879701896397 / 2 ^ 54) =
      1 / 2 := by
    rw [roundF_eval_neg ((5404319552844595 : ℚ) / 2 ^ 54 + 3602879701896397 / 2 ^ 54)
      0 53 4503599627370496 (by norm_num) (by norm_num) (by norm_num) (by norm_num)
      (by norm_num) (by norm_num)]
    norm_num
  have b3 : roundF ((1 : ℚ) / 2 + 3602879701896397 / 2 ^ 55) =
      5404319552844595 / 2 ^ 53 := by
    rw [roundF_eval_neg ((1 : ℚ) / 2 + 3602879701896397 / 2 ^ 55) (1 / 4) 53
      5404319552844595 (by norm_num) (by norm_num) (by norm_num) (by norm_num)
      (by norm_num) (by norm_num)]
    norm_num
  have d2 : roundF ((5404319552844595 : ℚ) / 2 ^ 53 / (3 / 4)) =
      7205759403792793 / 2 ^ 53 := by
    rw [roundF_eval_neg ((5404319552844595 : ℚ) / 2 ^ 53 / (3 / 4)) (1 / 3) 53
      7205759403792793 (by norm_num) (by norm_num) (by norm_num) (by norm_num)
      (by norm_num) (by norm_num)]
    norm_num
  have hA : calculate_weighted_score_f64 permPairsA = 7205759403792795 / 2 ^ 53 := by
    simp only [calculate_weighted_score_f64, permPairsA, List.foldl, fadd, fmul, fdiv]
    rw [m1, a1, m2, a2, m3, a3, w1, w2, w3]
    rw [if_pos (by norm_num : (0 : ℚ) < 3 / 4 ∧ (3 : ℚ) / 4 ≠ 1)]
    rw [d1]
    exact min_eq_right (by norm_num)
  have hB : calculate_weighted_score_f64 permPairsB = 7205759403792793 / 2 ^ 53 := by
    simp only [calculate_weighted_score_f64, permPairsB, List.foldl, fadd, fmul, fdiv]
    rw [m3, b1, m2, b2, m1, b3, w1, w2, w3]
    rw [if_pos (by norm_num : (0 : ℚ) < 3 / 4 ∧ (3 : ℚ) / 4 ≠ 1)]
    rw [d2]
    exact min_eq_right (by norm_num)
  exact ⟨hperm, hA, hB, by rw [hA, hB]; norm_num⟩

/-- **C8 amended.** The weighted aggregation is permutation-invariant
when the weighted sum and the total applied weight are computed in
exact arithmetic: each dimension keeps its own weight, and both sums
are permutation invariant.  Under the source's IEEE-754 double
accumulation in registry order the overall score is order-dependent
in general (see the counterexample), so the claimed invariance holds
only up to one unit in the last place of the double result. -/
theorem overall_score_perm_invariant (weights : List (String × ℚ))
    (ps ps' : List (String × PluginRun)) (h : ps.Perm ps') :
    (assess_quality weights ps).overall_score =
      (assess_quality weights ps').overall_score := by
  have hperm : ((runPlugins ps).1).Perm ((runPlugins ps').1) := by
    rw [runPlugins_fst, runPlugins_fst]
    exact h.map _
  show calculate_weighted_score weights (runPlugins ps).1 =
    calculate_weighted_score weights (runPlugins ps').1
  simp only [calculate_weighted_score]
  rw [(hperm.map (fun p => p.2 * weightsGet weights p.1)).sum_eq,
    (hperm.map (fun p => weightsGet weights p.1)).sum_eq]

/-- **C8 witness.** Swapping two registered plugins leaves the
overall score unchanged. -/
theorem overall_score_perm_invariant_witness :
    (assess_quality default_weights
        [("completeness", PluginRun.ok 3 zeroDetails),
         ("usability", PluginRun.ok 7 zeroDetails)]).overall_score =
    (assess_quality default_weights
        [("usability", PluginRun.ok 7 zeroDetails),
         ("completeness", PluginRun.ok 3 zeroDetails)]).overall_score :=
  overall_score_perm_invariant default_weights _ _ (List.Perm.swap _ _ _)

/-- **C10.** The built-in completeness assessor awards up to 7 points
out of a declared 6 (the script signal alone adds 2) and returns
`(points / 6) * 10` with no upper clamp, so a directory satisfying
all six signals scores 35/3 > 10; with every other dimension at its
maximum 10, the unclamped weighted total — which the report passes
through as `summary.quality_score` — is 10.5 > 10. -/
theorem builtin_completeness_exceeds_ten :
    validator_assess_completeness allCompletenessSignals = 35 / 3 ∧
    (10 : ℚ) < validator_assess_completeness allCompletenessSignals ∧
    validator_quality_score allValidatorSignals = 21 / 2 ∧
    (generate_validation_report
        { syntaxIssues := [], syntaxPassed := 0, syntaxFailed := 0, logicIssues := [],
          logicPassed := 0, logicFailed := 0, depIssues := [], depPassed := 0,
          depFailed := 0,
          qualityScore := validator_quality_score allValidatorSignals
        }).summary.quality_score = 21 / 2 ∧
    (10 : ℚ) < 21 / 2 := by
  have h1 : validator_assess_completeness allCompletenessSignals = 35 / 3 := by
    norm_num [validator_assess_completeness, allCompletenessSignals,
      CompletenessSignals.existingDirs]
  have h2 : validator_quality_score allValidatorSignals = 21 / 2 := by
    norm_num [validator_quality_score, allValidatorSignals, h1,
      validator_assess_completeness, allCompletenessSignals,
      CompletenessSignals.existingDirs, validator_assess_usability,
      validator_assess_maintainability, validator_assess_documentation,
      validator_assess_extensibility, validator_check_oo_design,
      sumTotalLines, sumCommentLines]
  refine ⟨h1, by rw [h1]; norm_num, h2, ?_, by norm_num⟩
  show validator_quality_score allValidatorSignals = 21 / 2
  exact h2

/-- **C7.** If one registered plugin's `assess` or
`get_assessment_details` call raises, `assess_quality` records
dimension score `0.0` and a synthetic failed-check entry for that
plugin, still records the results of every plugin before and after
it, and returns a full result. -/
theorem plugin_error_records_zero_and_continues
    (weights : List (String × ℚ)) (pre post : List (String × PluginRun))
    (n e : String) (r : PluginRun)
    (h : r = PluginRun.assessError e ∨ ∃ s, r = PluginRun.detailsError s e) :
    (assess_quality weights (pre ++ (n, r) :: post)).dimension_scores =
      pre.map (fun p => (p.1, p.2.finalScore)) ++ (n, 0) ::
        post.map (fun p => (p.1, p.2.finalScore)) ∧
    (assess_quality weights (pre ++ (n, r) :: post)).plugin_details =
      pre.map (fun p => (p.1, p.2.finalDetails)) ++ (n, syntheticDetails e) ::
        post.map (fun p => (p.1, p.2.finalDetails)) ∧
    (syntheticDetails e).failed_checks = ["插件执行失败: " ++ e] := by
  have hs : r.finalScore = 0 := by
    rcases h with rfl | ⟨s, rfl⟩ <;> rfl
  have hd : r.finalDetails = syntheticDetails e := by
    rcases h with rfl | ⟨s, rfl⟩ <;> rfl
  refine ⟨?_, ?_, rfl⟩
  · show (runPlugins (pre ++ (n, r) :: post)).1 = _
    rw [runPlugins_fst, List.map_append, List.map_cons]
    simp [hs]
  · show (runPlugins (pre ++ (n, r) :: post)).2 = _
    rw [runPlugins_snd, List.map_append, List.map_cons]
    simp [hd]

/-- **C7 witness.** A failing middle plugin scores 0 while its
neighbours keep their scores. -/
theorem plugin_error_records_zero_and_continues_witness :
    (assess_quality default_weights
        [("completeness", PluginRun.ok 5 zeroDetails),
         ("usability", PluginRun.assessError "boom"),
         ("maintainability", PluginRun.ok 7 zeroDetails)]).dimension_scores =
      [("completeness", 5), ("usability", 0), ("maintainability", 7)] := by
  have h := plugin_error_records_zero_and_continues default_weights
    [("completeness", PluginRun.ok 5 zeroDetails)]
    [("maintainability", PluginRun.ok 7 zeroDetails)]
    "usability" "boom" (PluginRun.assessError "boom") (Or.inl rfl)
  simpa [PluginRun.finalScore] using h.1

/-- **C9 counterexample.** `update_weights` with a weight mapping
summing to 5 (far outside the 0.8–1.2 tolerance) logs the warning but
still applies the bad mapping: the completeness weight becomes 5, not
the built-in default 0.3. -/
theorem update_weights_applies_bad_weights :
    (update_weights default_weights [("completeness", 5)]).1 = true ∧
    ((update_weights default_weights [("completeness", 5)]).2).lookup "completeness" =
      some 5 ∧
    (update_weights default_weights [("completeness", 5)]).2 ≠ default_weights := by
  refine ⟨?_, ?_, ?_⟩
  · norm_num [update_weights]
  · norm_num [update_weights, dictUpdate, default_weights, List.lookup]
  · intro habs
    have h5 : ((update_weights default_weights [("completeness", 5)]).2).lookup
        "completeness" = some 5 := by
      norm_num [update_weights, dictUpdate, default_weights, List.lookup]
    rw [habs] at h5
    norm_num [default_weights, List.lookup] at h5

/-- **C9 amended.** A missing or unparseable extended-plugin config
file is logged and the built-in defaults are substituted; a weight
mapping whose sum is outside the 0.8–1.2 tolerance makes
`update_weights` log a warning, but — contrary to the claim — the new
weights are applied anyway (every supplied weight takes effect);
neither path raises. -/
theorem config_defaults_and_weight_update_behavior :
    load_config none = default_plugin_config ∧
    (∀ e : String, load_config (some (Except.error e)) = default_plugin_config) ∧
    (∀ (cur new : List (String × ℚ)) (k : String) (v : ℚ),
        new.lookup k = some v →
        ((update_weights cur new).2).lookup k = some v) ∧
    (∀ cur new : List (String × ℚ),
        ((update_weights cur new).1 = true ↔
          ¬(4 / 5 ≤ (new.map Prod.snd).sum ∧ (new.map Prod.snd).sum ≤ 6 / 5))) := by
  refine ⟨rfl, fun e => rfl, ?_, ?_⟩
  · intro cur new k v h
    exact lookup_dictUpdate cur new k v h
  · intro cur new
    simp only [update_weights]
    split_ifs with hP
    · simp [hP]
    · simp [hP]

/-- **C9 witness.** The weight-update part applied to the concrete
bad mapping of the counterexample, and the config fallback on a
parse error. -/
theorem config_defaults_and_weight_update_behavior_witness :
    ((update_weights default_weights [("completeness", 5)]).2).lookup "completeness" =
      some 5 ∧
    load_config (some (Except.error "bad yaml")) = default_plugin_config :=
  ⟨config_defaults_and_weight_update_behavior.2.2.1 default_weights
      [("completeness", 5)] "completeness" 5 (by simp [List.lookup]),
    config_defaults_and_weight_update_behavior.2.1 "bad yaml"⟩

/-- **C6 counterexample.** For `MaintainabilityPlugin`, a directory
whose Python code has a 5% comment ratio (partial credit 1.25 of 2.5)
while every other check fully passes yields `failed_checks = []` with
a non-empty `recommendations` list — refuting "recommendations is
non-empty only when failed_checks is non-empty". -/
theorem maintainability_recommendations_without_failed_checks :
    (maintainability_plugin_details true [partialCommentStats] true true).failed_checks
      = [] ∧
    (maintainability_plugin_details true [partialCommentStats] true true).recommendations
      = ["提高代码注释率到10%以上"] := by
  have hc : plugin_check_comment_ratio [partialCommentStats] = 5 / 4 := by
    norm_num [plugin_check_comment_ratio, sumTotalLines, sumCommentLines,
      partialCommentStats]
  have ho : plugin_check_oo_design [partialCommentStats] = 5 / 2 := by
    norm_num [plugin_check_oo_design, partialCommentStats]
  constructor <;>
    norm_num [maintainability_plugin_details, hc, ho]

/-- **C6 amended.** For each of the five standard plugins, the
`score` of `get_assessment_details` lies in `[0, max_score]`; for
Completeness, Usability, Documentation and Extensibility the
`recommendations` list is non-empty only when `failed_checks` is
non-empty — but for Maintainability a graduated sub-check earning
partial credit can append a recommendation while `failed_checks`
stays empty, so the pairing holds only for the four all-or-nothing
plugins. -/
theorem plugin_details_score_bounds_and_pairing :
    (∀ (v : Bool) (s : CompletenessSignals),
        (0 ≤ (completeness_plugin_details v s).score ∧
          (completeness_plugin_details v s).score ≤ 10) ∧
        ((completeness_plugin_details v s).recommendations ≠ [] →
          (completeness_plugin_details v s).failed_checks ≠ [])) ∧
    (∀ (v : Bool) (s : UsabilitySignals),
        (0 ≤ (usability_plugin_details v s).score ∧
          (usability_plugin_details v s).score ≤ 10) ∧
        ((usability_plugin_details v s).recommendations ≠ [] →
          (usability_plugin_details v s).failed_checks ≠ [])) ∧
    (∀ (v : Bool) (s : DocumentationSignals),
        (0 ≤ (documentation_plugin_details v s).score ∧
          (documentation_plugin_details v s).score ≤ 10) ∧
        ((documentation_plugin_details v s).recommendations ≠ [] →
          (documentation_plugin_details v s).failed_checks ≠ [])) ∧
    (∀ (v : Bool) (s : ExtensibilitySignals),
        (0 ≤ (extensibility_plugin_details v s).score ∧
          (extensibility_plugin_details v s).score ≤ 10) ∧
        ((extensibility_plugin_details v s).recommendations ≠ [] →
          (extensibility_plugin_details v s).failed_checks ≠ [])) ∧
    (∀ (v : Bool) (files : List PyFileStats) (vf lf : Bool),
        0 ≤ (maintainability_plugin_details v files vf lf).score ∧
          (maintainability_plugin_details v files vf lf).score ≤ 10) := by
  refine ⟨fun v s => ⟨completeness_details_score_bounds v s, completeness_pairing v s⟩,
    fun v s => ⟨usability_details_score_bounds v s, usability_pairing v s⟩,
    fun v s => ⟨documentation_details_score_bounds v s, documentation_pairing v s⟩,
    fun v s => ⟨extensibility_details_score_bounds v s, extensibility_pairing v s⟩,
    fun v files vf lf => maintainability_details_score_bounds v files vf lf⟩

/-- **C6 witness.** The usability pairing applied at a concrete
all-failing directory: the recommendations are non-empty, so the
failed checks are too. -/
theorem plugin_details_score_bounds_and_pairing_witness :
    (usability_plugin_details true
        { usageGuidance := false, exampleCode := false, errorHandlingDocs := false,
          configurationDocs := false, faqDocs := false }).failed_checks ≠ [] :=
  (plugin_details_score_bounds_and_pairing.2.1 true
      { usageGuidance := false, exampleCode := false, errorHandlingDocs := false,
        configurationDocs := false, faqDocs := false }).2
    (by decide)

/-- **C3.** `_is_anchor_valid` is the three-tier cascade: literal
membership; else membership of the percent-decoded candidate; else —
exactly — a case-insensitive comparison after stripping outer hyphens
from both sides against some member.  In particular
`is_anchor_valid "Foo-Bar" {"foo-bar"}` holds, and every exact member
of `generate_possible_anchors H` validates against that set. -/
theorem is_anchor_valid_three_tier_spec :
    (∀ (c : String) (S : List String),
        (c ∈ S → is_anchor_valid c S = true) ∧
        (c ∉ S → unquote c ∈ S → is_anchor_valid c S = true) ∧
        (c ∉ S → unquote c ∉ S →
          (is_anchor_valid c S = true ↔
            ∃ a ∈ S, normalizeAnchor c = normalizeAnchor a))) ∧
    is_anchor_valid "Foo-Bar" ["foo-bar"] = true ∧
    (∀ (H A : String), A ∈ generate_possible_anchors H →
        is_anchor_valid A (generate_possible_anchors H) = true) := by
  refine ⟨fun c S => ⟨?_, ?_, ?_⟩, by decide, fun H A hA => ?_⟩
  · intro hc
    simp [is_anchor_valid, hc]
  · intro hc hu
    simp [is_anchor_valid, hc, hu]
  · intro hc hu
    simp [is_anchor_valid, hc, hu, List.any_eq_true]
  · simp [is_anchor_valid, hA]

/-- **C3 witness.** The three tiers at concrete inputs: a literal
member, a percent-encoded member (`%78` decodes to `x`), and a
case/hyphen-insensitive match. -/
theorem is_anchor_valid_three_tier_spec_witness :
    is_anchor_valid "x" ["x"] = true ∧
    is_anchor_valid "%78" ["x"] = true ∧
    is_anchor_valid "X-" ["x"] = true :=
  ⟨(is_anchor_valid_three_tier_spec.1 "x" ["x"]).1 (by decide),
    (is_anchor_valid_three_tier_spec.1 "%78" ["x"]).2.1 (by decide) (by decide),
    ((is_anchor_valid_three_tier_spec.1 "X-" ["x"]).2.2 (by decide) (by decide)).mpr
      ⟨"x", by decide, by decide⟩⟩

/-- **C4 counterexample.** `"?"` is a non-empty heading, yet
`generate_possible_anchors "?"` is empty: every slugification format
strips the question mark and the empties are filtered out, refuting
"non-empty for every non-empty heading". -/
theorem generate_possible_anchors_punct_only_empty :
    generate_possible_anchors "?" = [] ∧ "?" ≠ "" :=
  ⟨by decide, by decide⟩

/-- **C4 amended.** For every heading `H`,
`generate_possible_anchors H` is duplicate-free and contains no empty
string, and a second call yields the same list; it is non-empty
whenever `H` contains at least one word character (the slugifications
can erase a heading made only of punctuation, e.g. `"?"`). -/
theorem generate_possible_anchors_nodup_no_empty (H : String) :
    (generate_possible_anchors H).Nodup ∧
    "" ∉ generate_possible_anchors H ∧
    generate_possible_anchors H = generate_possible_anchors H ∧
    ((∃ c ∈ H.data, pyIsWord c = true) → generate_possible_anchors H ≠ []) := by
  refine ⟨pydedup_nodup _, ?_, rfl, ?_⟩
  · intro hmem
    simp only [generate_possible_anchors] at hmem
    rw [mem_pydedup] at hmem
    obtain ⟨l, hl, hmk⟩ := List.mem_map.mp hmem
    have hne : l ≠ [] := by simpa using (List.mem_filter.mp hl).2
    exact hne (congrArg String.data hmk)
  · rintro ⟨c, hcH, hw⟩
    have hsp := word_not_space hw
    have h1 : c ∈ titleChars H :=
      mem_pyStrip hsp _ (mem_dropWhile_of_neg (word_not_hash_space hw) _ hcH)
    have h3 : c ∈ (titleChars H).filter simpleKeep :=
      List.mem_filter.mpr ⟨h1, by simp [simpleKeep, hw]⟩
    have h4 : c ∈ pyStrip ((titleChars H).filter simpleKeep) := mem_pyStrip hsp _ h3
    have h5 : c ∈ subWsHyphen (pyStrip ((titleChars H).filter simpleKeep)) :=
      mem_subWsHyphenAux hsp _ false h4
    have hne := List.ne_nil_of_mem h5
    have hraw := simple_mem_rawAnchors H hne
    have hfinal : String.mk (subWsHyphen (pyStrip ((titleChars H).filter simpleKeep))) ∈
        generate_possible_anchors H := by
      simp only [generate_possible_anchors]
      rw [mem_pydedup]
      exact List.mem_map_of_mem _ (List.mem_filter.mpr ⟨hraw, by simpa using hne⟩)
    exact List.ne_nil_of_mem hfinal

/-- **C4 witness.** A heading with a word character produces a
non-empty anchor set. -/
theorem generate_possible_anchors_nodup_no_empty_witness :
    generate_possible_anchors "Heading 1" ≠ [] :=
  (generate_possible_anchors_nodup_no_empty "Heading 1").2.2.2
    ⟨'H', by decide, by decide⟩

/-- **C5 counterexample.** In `fencedDemo` the only `#`-starting line
(line 2) lies inside a fenced code block, yet `_check_link_integrity`
collects its anchors — the collection loop has no fence toggle — so
the link `[x](#secret-heading)` is not flagged; the fence-aware
collection the spec requires flags it as broken. -/
theorem fenced_heading_used_as_anchor_source :
    (splitNl fencedDemo.data).get? 1 = some "# Secret Heading".data ∧
    inFence fencedDemo 2 = true ∧
    (collectAnchors fencedDemo).contains "secret-heading" = true ∧
    internal_link_issues "main.md" fencedDemo = [] ∧
    spec_internal_link_issues "main.md" fencedDemo ≠ [] :=
  ⟨by decide, by decide, by decide, by decide, by decide⟩

/-- **C5 amended.** A heading-like line inside a fenced code block
never produces a `heading_hierarchy` issue (the hierarchy scan
toggles on fence lines), but — contrary to the claim — it *is* used
as an anchor source when internal `#`-links are validated: in
`fencedDemo` the fenced heading's anchors are collected and the link
targeting it is not reported broken. -/
theorem fenced_heading_no_hierarchy_issue_but_anchor_source :
    (∀ (content file : String) (i : Nat), inFence content i = true →
        ((check_heading_hierarchy file content).all
          (fun issue => issue.line ≠ some i)) = true) ∧
    (collectAnchors fencedDemo).contains "secret-heading" = true ∧
    internal_link_issues "main.md" fencedDemo = [] := by
  refine ⟨?_, by decide, by decide⟩
  intro content file i hif
  rw [List.all_eq_true]
  intro issue hmem
  rw [decide_eq_true_iff]
  intro hline
  unfold check_heading_hierarchy at hmem
  obtain ⟨k, hk, hline', hpar⟩ :=
    hierScan_line_not_fenced file (splitNl content.data) 1 0 false issue hmem
  rw [hline] at hline'
  have hi : i = 1 + k := Option.some.inj hline'
  simp only [inFence] at hif
  rw [decide_eq_true_iff] at hif
  rw [hi, Nat.add_sub_cancel_left] at hif
  simp at hpar
  omega

/-- **C5 witness.** A document whose fenced second line is
heading-like produces no hierarchy issue citing that line. -/
theorem fenced_heading_no_hierarchy_issue_witness :
    ((check_heading_hierarchy "f" "```\n### X\n```\n# A").all
      (fun issue => issue.line ≠ some 2)) = true :=
  fenced_heading_no_hierarchy_issue_but_anchor_source.1 "```\n### X\n```\n# A" "f" 2
    (by decide)

